import Mathlib

/-!
# The file-descriptor layer of `kern/syscall/file.c`

A shallow embedding of the descriptor table, the open-file table and the
syscalls `open`, `close`, `read`, `write`, `lseek` and `dup2`, followed by
theorems about them.

## Shape of the model

* `curproc->fd_table` and `of_table` are C arrays indexed by an `int`.  They are
  modelled as total maps from `Int`: the cells with index in `[0, FD_MAX)`
  (resp. `[0, OPEN_MAX)`) are the array, the cells outside stand for the memory
  next to the array, which the scans `get_fd` and `get_of` can reach.
* A slot of `of_table` holds a pointer (`Nat`, `0` is `NULL`, which is also
  `OF_EMPTY`).  The records live in `heap`, a map from addresses to the contents
  of the `struct open_file` stored there.  `kfree` leaves both the pointer and
  the contents in place, as the source does.
* The collaborators that are not part of this layer (`copyinstr`, `kmalloc`,
  `vfs_open`, `VOP_STAT`, `VOP_ISSEEKABLE`, `VOP_READ`, `VOP_WRITE`) are the
  fields of `Env`; each answer may depend on all the calls made before it.
  Every call to a collaborator is appended to `Kernel.trace`.  A path is handed
  to `vfs_open` in a buffer that the call may rewrite; `Env.vfs_path` gives the
  buffer as the call leaves it.
* `ref_count` is an `int` that moves by one per descriptor operation; it is
  modelled as an unbounded integer.  `off_t` additions wrap at 64 bits and the
  byte count stored by `read`/`write` wraps at 32 bits.
-/

namespace Syscalls

/-! ## Constants -/

/-- Capacity of a process's descriptor table (`file.h`). -/
def FD_MAX : Int := 128

/-- Marker of an unused descriptor-table entry (`file.h`). -/
def FD_EMPTY : Int := -1

/-- Marker of a free open-file-table slot (`file.h`); as a pointer it is `NULL`. -/
def OF_EMPTY : Nat := 0

/-- Modelled from the spec: `OPEN_MAX` is defined in `kern/limits.h`, which is
not among the sources; it is the fixed capacity of the Open-File-Object Table
(128 in OS/161). -/
def OPEN_MAX : Int := 128

/-- Modelled from the spec: the result code "out of memory" of `kern/errno.h`,
which is not among the sources (OS/161 value). -/
def ENOMEM : Int := 3

/-- Modelled from the spec: the result code "invalid argument" of
`kern/errno.h`, which is not among the sources (OS/161 value). -/
def EINVAL : Int := 8

/-- Modelled from the spec: the result code "too many open files for this
process" of `kern/errno.h`, which is not among the sources (OS/161 value). -/
def EMFILE : Int := 28

/-- Modelled from the spec: the result code "too many open files system-wide"
of `kern/errno.h`, which is not among the sources (OS/161 value). -/
def ENFILE : Int := 29

/-- Modelled from the spec: the result code "bad descriptor" of `kern/errno.h`,
which is not among the sources (OS/161 value). -/
def EBADF : Int := 30

/-- Modelled from the spec: the result code "not seekable" of `kern/errno.h`,
which is not among the sources (OS/161 value). -/
def ESPIPE : Int := 33

/-- Modelled from the spec: the access mode "read-only" of `kern/fcntl.h`,
which is not among the sources (OS/161 value). -/
def O_RDONLY : Int := 0

/-- Modelled from the spec: the access mode "write-only" of `kern/fcntl.h`,
which is not among the sources (OS/161 value). -/
def O_WRONLY : Int := 1

/-- Modelled from the spec: the access mode "read-write" of `kern/fcntl.h`,
which is not among the sources (OS/161 value). -/
def O_RDWR : Int := 2

/-- Modelled from the spec: the mask of the access-mode bits of `kern/fcntl.h`,
which is not among the sources (OS/161 value). -/
def O_ACCMODE : Int := 3

/-- Modelled from the spec: the "append" flag of `kern/fcntl.h`, which is not
among the sources (OS/161 value). -/
def O_APPEND : Int := 32

/-- Modelled from the spec: `whence` "from start" of `kern/seek.h`, which is
not among the sources (OS/161 value). -/
def SEEK_SET : Int := 0

/-- Modelled from the spec: `whence` "from current offset" of `kern/seek.h`,
which is not among the sources (OS/161 value). -/
def SEEK_CUR : Int := 1

/-- Modelled from the spec: `whence` "from end" of `kern/seek.h`, which is not
among the sources (OS/161 value). -/
def SEEK_END : Int := 2

/-! ## Machine integers -/

/-- Value of a C `int` (32 bits, two's complement) holding `x` modulo `2^32`. -/
def to_int (x : Int) : Int := (x + 2 ^ 31) % 2 ^ 32 - 2 ^ 31

/-- Value of an `off_t` (64 bits, two's complement) holding `x` modulo `2^64`. -/
def to_off_t (x : Int) : Int := (x + 2 ^ 63) % 2 ^ 64 - 2 ^ 63

/-! ## Data model -/

/-- The record `struct open_file` of `file.h`; `vn` is the vnode handle. -/
structure open_file where
  vn : Nat
  ref_count : Int
  offset : Int
  mode : Int
  flags : Int
deriving DecidableEq, Repr

/-- One call made to a collaborator outside this layer. -/
inductive Call where
  | copyinstr (uaddr : Int)
  | kmalloc
  | kfree (p : Nat)
  | vfs_open (path : String) (flags mode : Int)
  | vfs_close (vn : Nat)
  | VOP_STAT (vn : Nat)
  | VOP_ISSEEKABLE (vn : Nat)
  | VOP_READ (vn : Nat) (buf offset len : Int)
  | VOP_WRITE (vn : Nat) (buf offset len : Int)
deriving DecidableEq, Repr

/-- What a `VOP_READ`/`VOP_WRITE` leaves behind: its result code and the
`uio_offset` and `uio_resid` of the `struct uio` it was given. -/
structure UioResult where
  err : Int
  uio_offset : Int
  uio_resid : Int
deriving DecidableEq, Repr

/-- The collaborators.  Each answer is a function of the calls made so far and
of the arguments of the call.
* `copyinstr` gives the result code and the string copied in;
* `kmalloc` gives the address of the block (`0` for `NULL`);
* `vfs_open` gives the result code and the vnode handle;
* `vfs_path` gives the contents of the path buffer when that `vfs_open`
  returns: the call is handed a `char *` and may rewrite what it points to;
* `VOP_STAT` gives the result code and `st_size`. -/
structure Env where
  copyinstr : List Call → Int → Int × String
  kmalloc : List Call → Nat
  vfs_open : List Call → String → Int → Int → Int × Nat
  vfs_path : List Call → String → Int → Int → String
  VOP_STAT : List Call → Nat → Int × Int
  VOP_ISSEEKABLE : List Call → Nat → Bool
  VOP_READ : List Call → Nat → Int → Int → Int → UioResult
  VOP_WRITE : List Call → Nat → Int → Int → Int → UioResult

/-- The state the syscalls work on: the current process's descriptor table,
the global open-file table, the records it points to, and the calls made so far
to the collaborators. -/
structure Kernel where
  fd_table : Int → Int
  of_table : Int → Nat
  heap : Nat → open_file
  trace : List Call

/-- Outcome of a syscall: the value returned, the value stored through `rtn`
(if the call stored one) and the state afterwards. -/
structure Ret where
  err : Int
  rtn : Option Int
  st : Kernel

/-- Assignment `t[i] = v` to a cell of a table. -/
def store {α : Type} (t : Int → α) (i : Int) (v : α) : Int → α :=
  fun j => if j = i then v else t j

/-- Assignment `*p = r` to the record at address `p`. -/
def poke (h : Nat → open_file) (p : Nat) (r : open_file) : Nat → open_file :=
  fun q => if q = p then r else h q

/-- Appends a call to the trace. -/
def record_call (s : Kernel) (c : Call) : Kernel :=
  { s with trace := s.trace ++ [c] }

/-! ## Helper functions of `file.c` -/

/-- The function `create_of` of `file.c`, called with `of = &of_table[slot]`;
`filename` is the contents of the buffer it is given.  Neither `create_of` nor
its callers read that buffer again after the `vfs_open` made here. -/
def create_of (E : Env) (s : Kernel) (filename : String) (flags mode : Int)
    (slot : Int) : Int × Kernel :=
  let p := E.kmalloc s.trace
  let s1 := { record_call s Call.kmalloc with of_table := store s.of_table slot p }
  if p = 0 then (ENOMEM, s1)
  else
    let o := E.vfs_open s1.trace filename flags mode
    let s2 := record_call s1 (Call.vfs_open filename flags mode)
    if o.1 ≠ 0 then (o.1, s2)
    else
      let r : open_file :=
        { vn := o.2, ref_count := 0, offset := 0, mode := mode, flags := flags }
      (0, { s2 with heap := poke s2.heap p r })

/-- The loop `while (i++ < max) { if (is_empty i) return i; } return i;` shared
by `get_of` and `get_fd`, entered with the counter at `i` and with `n = max - i`
passes left before the test `i++ < max` fails. -/
def scan_loop (is_empty : Int → Bool) : Nat → Int → Int
  | 0, i => i + 1
  | n + 1, i => if is_empty (i + 1) then i + 1 else scan_loop is_empty n (i + 1)

/-- The function `get_of` of `file.c`. -/
def get_of (s : Kernel) : Int :=
  scan_loop (fun i => decide (s.of_table i = OF_EMPTY)) OPEN_MAX.toNat 0

/-- The function `get_fd` of `file.c`. -/
def get_fd (s : Kernel) : Int :=
  scan_loop (fun i => decide (s.fd_table i = FD_EMPTY)) FD_MAX.toNat 0

/-- The function `check_fd` of `file.c`. -/
def check_fd (s : Kernel) (fd : Int) : Int :=
  if fd < 0 ∨ fd ≥ FD_MAX then EBADF
  else
    let of := s.fd_table fd
    if of < 0 ∨ of ≥ OPEN_MAX then EBADF
    else if s.of_table of = OF_EMPTY then EBADF
    else 0

/-- The function `init_filesystem` of `file.c`.  The table is a fresh block:
`memset` clears its `OPEN_MAX` slots, the cells around it keep what they held.
The buffer `conname` is filled with `"con:"` anew before each `create_of`. -/
def init_filesystem (E : Env) (s : Kernel) : Int × Kernel :=
  let t := E.kmalloc s.trace
  let s0 := record_call s Call.kmalloc
  if t = 0 then (ENOMEM, s0)
  else
    let s1 := { s0 with
      of_table := fun i => if 0 ≤ i ∧ i < OPEN_MAX then OF_EMPTY else s0.of_table i }
    let r1 := create_of E s1 "con:" O_WRONLY 436 1
    if r1.1 ≠ 0 then r1
    else
      let r2 := create_of E r1.2 "con:" O_RDONLY 436 2
      if r2.1 ≠ 0 then r2
      else (0, r2.2)

/-- One pass of the loop of `cleanup_filesystem` of `file.c`. -/
def cleanup_step (s : Kernel) (i : Nat) : Kernel :=
  if s.of_table i = OF_EMPTY then s
  else
    record_call (record_call s (Call.vfs_close (s.heap (s.of_table i)).vn))
      (Call.kfree (s.of_table i))

/-- The function `cleanup_filesystem` of `file.c`. -/
def cleanup_filesystem (s : Kernel) : Kernel :=
  (List.range OPEN_MAX.toNat).foldl cleanup_step s

/-! ## Syscalls -/

/-- The function `sys_open` of `file.c`; `filename` is the user address of the
path.  The test `k_filename == NULL` is on the address of a local array and
never holds.  The buffer `k_filename` is handed to `vfs_open` and then, as that
call left it, to `create_of`. -/
def sys_open (E : Env) (s : Kernel) (filename : Int) (flags mode : Int) : Ret :=
  let c := E.copyinstr s.trace filename
  let s0 := record_call s (Call.copyinstr filename)
  if c.1 ≠ 0 then ⟨c.1, none, s0⟩
  else
    let k_filename := c.2
    let access_mode := Int.land flags O_ACCMODE
    if access_mode ≠ O_RDONLY ∧ access_mode ≠ O_WRONLY ∧ access_mode ≠ O_RDWR then
      ⟨EINVAL, none, s0⟩
    else
      let o := E.vfs_open s0.trace k_filename flags mode
      let k_left := E.vfs_path s0.trace k_filename flags mode
      let s1 := record_call s0 (Call.vfs_open k_filename flags mode)
      if o.1 ≠ 0 then ⟨o.1, none, s1⟩
      else
        let fd := get_fd s1
        if fd = FD_MAX then ⟨EMFILE, none, s1⟩
        else
          let of := get_of s1
          if of = OPEN_MAX then ⟨ENFILE, none, s1⟩
          else
            let cr := create_of E s1 k_left flags mode of
            if cr.1 ≠ 0 then ⟨cr.1, none, cr.2⟩
            else
              let s2 := { cr.2 with fd_table := store cr.2.fd_table fd of }
              if Int.land flags O_APPEND ≠ 0 then
                let p := s2.of_table of
                let st := E.VOP_STAT s2.trace (s2.heap p).vn
                let s3 := record_call s2 (Call.VOP_STAT (s2.heap p).vn)
                if st.1 ≠ 0 then ⟨st.1, none, s3⟩
                else
                  let r : open_file := { s3.heap p with offset := st.2 }
                  ⟨0, some fd, { s3 with heap := poke s3.heap p r }⟩
              else ⟨0, some fd, s2⟩

/-- The function `sys_close` of `file.c`. -/
def sys_close (s : Kernel) (fd : Int) : Ret :=
  let err := check_fd s fd
  if err ≠ 0 then ⟨err, none, s⟩
  else
    let of := s.fd_table fd
    let p := s.of_table of
    let r : open_file := { s.heap p with ref_count := (s.heap p).ref_count - 1 }
    let s1 := { s with heap := poke s.heap p r }
    let s2 :=
      if r.ref_count = 0 then
        record_call (record_call s1 (Call.vfs_close r.vn)) (Call.kfree p)
      else s1
    ⟨0, some 0, { s2 with fd_table := store s2.fd_table fd FD_EMPTY }⟩

/-- The function `sys_read` of `file.c`; `buf` is the user address of the
buffer. -/
def sys_read (E : Env) (s : Kernel) (fd : Int) (buf : Int) (buflen : Int) : Ret :=
  let err := check_fd s fd
  if err ≠ 0 then ⟨err, none, s⟩
  else
    let of_idx := s.fd_table fd
    let of := s.of_table of_idx
    if Int.land (s.heap of).flags O_WRONLY ≠ 0 then ⟨EBADF, none, s⟩
    else
      let iovec := E.kmalloc s.trace
      let s1 := record_call s Call.kmalloc
      if iovec = 0 then ⟨ENOMEM, none, s1⟩
      else
        let uio := E.kmalloc s1.trace
        let s2 := record_call s1 Call.kmalloc
        if uio = 0 then ⟨ENOMEM, none, s2⟩
        else
          let u := E.VOP_READ s2.trace (s2.heap of).vn buf (s2.heap of).offset buflen
          let s3 := record_call s2
            (Call.VOP_READ (s2.heap of).vn buf (s2.heap of).offset buflen)
          if u.err ≠ 0 then ⟨u.err, none, s3⟩
          else
            let r : open_file := { s3.heap of with offset := u.uio_offset }
            let s4 := { s3 with heap := poke s3.heap of r }
            ⟨0, some (to_int (buflen - u.uio_resid)),
              record_call (record_call s4 (Call.kfree iovec)) (Call.kfree uio)⟩

/-- The function `sys_write` of `file.c`; `buf` is the user address of the
buffer. -/
def sys_write (E : Env) (s : Kernel) (fd : Int) (buf : Int) (nbytes : Int) : Ret :=
  let err := check_fd s fd
  if err ≠ 0 then ⟨err, none, s⟩
  else
    let of_idx := s.fd_table fd
    let of := s.of_table of_idx
    if Int.land (s.heap of).flags O_ACCMODE = O_RDONLY then ⟨EBADF, none, s⟩
    else
      let iovec := E.kmalloc s.trace
      let s1 := record_call s Call.kmalloc
      if iovec = 0 then ⟨ENOMEM, none, s1⟩
      else
        let uio := E.kmalloc s1.trace
        let s2 := record_call s1 Call.kmalloc
        if uio = 0 then ⟨ENOMEM, none, s2⟩
        else
          let u := E.VOP_WRITE s2.trace (s2.heap of).vn buf (s2.heap of).offset nbytes
          let s3 := record_call s2
            (Call.VOP_WRITE (s2.heap of).vn buf (s2.heap of).offset nbytes)
          if u.err ≠ 0 then ⟨u.err, none, s3⟩
          else
            let r : open_file := { s3.heap of with offset := u.uio_offset }
            let s4 := { s3 with heap := poke s3.heap of r }
            ⟨0, some (to_int (nbytes - u.uio_resid)),
              record_call (record_call s4 (Call.kfree iovec)) (Call.kfree uio)⟩

/-- The function `sys_lseek` of `file.c`. -/
def sys_lseek (E : Env) (s : Kernel) (fd : Int) (pos : Int) (whence : Int) : Ret :=
  if ¬ (whence = SEEK_SET ∨ whence = SEEK_CUR ∨ whence = SEEK_END) then
    ⟨EINVAL, none, s⟩
  else
    let err := check_fd s fd
    if err ≠ 0 then ⟨err, none, s⟩
    else
      let of_idx := s.fd_table fd
      let of := s.of_table of_idx
      let seekable := E.VOP_ISSEEKABLE s.trace (s.heap of).vn
      let s1 := record_call s (Call.VOP_ISSEEKABLE (s.heap of).vn)
      if ¬ seekable then ⟨ESPIPE, none, s1⟩
      else
        let st := E.VOP_STAT s1.trace (s1.heap of).vn
        let s2 := record_call s1 (Call.VOP_STAT (s1.heap of).vn)
        if st.1 ≠ 0 then ⟨st.1, none, s2⟩
        else
          let new_offset :=
            if whence = SEEK_END then to_off_t (st.2 + pos)
            else if whence = SEEK_SET then pos
            else to_off_t (pos + (s2.heap of).offset)
          if new_offset > st.2 ∨ new_offset < 0 then ⟨EINVAL, none, s2⟩
          else
            let r : open_file := { s2.heap of with offset := new_offset }
            ⟨0, some new_offset, { s2 with heap := poke s2.heap of r }⟩

/-- The function `sys_dup2` of `file.c`. -/
def sys_dup2 (s : Kernel) (oldfd newfd : Int) : Ret :=
  let err := check_fd s oldfd
  if err ≠ 0 then ⟨err, none, s⟩
  else if newfd < 0 ∨ newfd ≥ FD_MAX then ⟨EBADF, none, s⟩
  else
    let old_of_idx := s.fd_table oldfd
    let old_of := s.of_table old_of_idx
    if oldfd = newfd then ⟨0, some newfd, s⟩
    else
      let c : Ret := if s.fd_table newfd ≠ FD_EMPTY then sys_close s newfd else ⟨0, none, s⟩
      if c.err ≠ 0 then c
      else
        let s1 := c.st
        let s2 := { s1 with fd_table := store s1.fd_table newfd (s1.fd_table oldfd) }
        let r : open_file :=
          { s2.heap old_of with ref_count := (s2.heap old_of).ref_count + 1 }
        ⟨0, some newfd, { s2 with heap := poke s2.heap old_of r }⟩

/-! ## Vocabulary of the statements -/

/-- A syscall that works on an existing descriptor, with its arguments. -/
inductive Op where
  | close (fd : Int)
  | read (fd buf buflen : Int)
  | write (fd buf nbytes : Int)
  | lseek (fd pos whence : Int)
  | dup2 (oldfd newfd : Int)
deriving DecidableEq, Repr

/-- Runs one syscall. -/
def Op.run (E : Env) (s : Kernel) : Op → Ret
  | Op.close fd => sys_close s fd
  | Op.read fd buf buflen => sys_read E s fd buf buflen
  | Op.write fd buf nbytes => sys_write E s fd buf nbytes
  | Op.lseek fd pos whence => sys_lseek E s fd pos whence
  | Op.dup2 oldfd newfd => sys_dup2 s oldfd newfd

/-- Runs a sequence of syscalls, first to last, and gives the final state. -/
def run_ops (E : Env) (s : Kernel) (ops : List Op) : Kernel :=
  ops.foldl (fun t op => (op.run E t).st) s

/-- The syscall does not assign descriptor `fd`: it is not a `dup2` onto it. -/
def Op.spares (fd : Int) : Op → Prop
  | Op.dup2 _ newfd => newfd ≠ fd
  | _ => True

/-- Number of times the vnode `vn` has been released (`vfs_close` called on it). -/
def releases (tr : List Call) (vn : Nat) : Nat :=
  tr.count (Call.vfs_close vn)

/-- A collaborator layer in which every call succeeds: blocks and vnodes are
fresh, every object is seekable and 100 bytes long, transfers are complete. -/
def env_ok : Env where
  copyinstr _ _ := (0, "a.txt")
  kmalloc tr := tr.length + 1000
  vfs_open tr _ _ _ := (0, tr.length + 1)
  vfs_path _ path _ _ := path
  VOP_STAT _ _ := (0, 100)
  VOP_ISSEEKABLE _ _ := true
  VOP_READ _ _ _ off len := ⟨0, off + len, 0⟩
  VOP_WRITE _ _ _ off len := ⟨0, off + len, 0⟩

/-- A state with nothing open: every descriptor empty, every slot free. -/
def blank : Kernel where
  fd_table _ := FD_EMPTY
  of_table _ := OF_EMPTY
  heap _ := ⟨0, 0, 0, 0, 0⟩
  trace := []

/-- The state `blank` after one `open` for reading and writing, mode `0644`. -/
def one_open : Kernel := (sys_open env_ok blank 0 O_RDWR 420).st

/-- The state `one_open` after `dup2 (1, 5)`. -/
def one_open_dup : Kernel := (sys_dup2 one_open 1 5).st

/-- The state `one_open_dup` after `close (1)`. -/
def one_open_dup_close : Kernel := (sys_close one_open_dup 1).st

/-- A process whose 128 descriptors all refer to slot 1, a write-only record
with 128 references; the memory around the descriptor table, and so the word
that follows it, holds `0`. -/
def crowded : Kernel where
  fd_table i := if 0 ≤ i ∧ i < 128 then 1 else 0
  of_table i := if i = 1 then 7 else OF_EMPTY
  heap p := if p = 7 then ⟨1, 128, 0, 436, O_WRONLY⟩ else ⟨0, 0, 0, 0, 0⟩
  trace := []

/-- A kernel whose 128 slots are all in use, slot `i` pointing to the block at
`1000 + i`, as does the word that follows the table in memory; the process has
descriptors 0, 1 and 2 on slot 1 and every other descriptor empty. -/
def crammed : Kernel where
  fd_table i := if 0 ≤ i ∧ i < 3 then 1 else FD_EMPTY
  of_table i := i.toNat + 1000
  heap _ := ⟨0, 0, 0, 0, 0⟩
  trace := []

/-- The access-mode bits of `flags` are one of the three known modes. -/
def access_ok (flags : Int) : Prop :=
  Int.land flags O_ACCMODE = O_RDONLY ∨ Int.land flags O_ACCMODE = O_WRONLY ∨
    Int.land flags O_ACCMODE = O_RDWR

instance access_ok_decidable (flags : Int) : Decidable (access_ok flags) := by
  unfold access_ok
  infer_instance

/-- State of `sys_open` once the path has been copied in. -/
@[reducible] def open_s0 (s : Kernel) (filename : Int) : Kernel :=
  record_call s (Call.copyinstr filename)

/-- State of `sys_open` once its own `vfs_open` has returned. -/
@[reducible] def open_s1 (E : Env) (s : Kernel) (filename flags mode : Int) : Kernel :=
  record_call (open_s0 s filename)
    (Call.vfs_open (E.copyinstr s.trace filename).2 flags mode)

/-- The path buffer of `sys_open` as its own `vfs_open` leaves it, which is what
`create_of` is given. -/
@[reducible] def open_path2 (E : Env) (s : Kernel) (filename flags mode : Int) : String :=
  E.vfs_path (open_s0 s filename).trace (E.copyinstr s.trace filename).2 flags mode

/-- Result of the `create_of` call of `sys_open`. -/
@[reducible] def open_cr (E : Env) (s : Kernel) (filename flags mode : Int) : Int × Kernel :=
  create_of E (open_s1 E s filename flags mode) (open_path2 E s filename flags mode) flags mode
    (get_of s)

/-- State of `sys_open` once the descriptor has been linked to the slot. -/
@[reducible] def open_s2 (E : Env) (s : Kernel) (filename flags mode : Int) : Kernel :=
  { (open_cr E s filename flags mode).2 with
    fd_table := store (open_cr E s filename flags mode).2.fd_table (get_fd s) (get_of s) }

/-- Answer of the `VOP_STAT` that `sys_open` makes under `O_APPEND`. -/
@[reducible] def open_stat (E : Env) (s : Kernel) (filename flags mode : Int) : Int × Int :=
  E.VOP_STAT (open_cr E s filename flags mode).2.trace
    ((open_cr E s filename flags mode).2.heap
      ((open_cr E s filename flags mode).2.of_table (get_of s))).vn

/-- A collaborator layer like `env_ok` whose `vfs_open` refuses `O_APPEND` with
`EINVAL`, as a device does. -/
def env_device : Env where
  copyinstr _ _ := (0, "con:")
  kmalloc tr := tr.length + 1000
  vfs_open tr _ flags _ := if Int.land flags O_APPEND ≠ 0 then (EINVAL, 0) else (0, tr.length + 1)
  vfs_path _ path _ _ := path
  VOP_STAT _ _ := (0, 0)
  VOP_ISSEEKABLE _ _ := false
  VOP_READ _ _ _ off len := ⟨0, off + len, 0⟩
  VOP_WRITE _ _ _ off len := ⟨0, off + len, 0⟩

/-- A collaborator layer like `env_ok` whose reads and writes transfer at most 3
bytes. -/
def env_short : Env where
  copyinstr _ _ := (0, "a.txt")
  kmalloc tr := tr.length + 1000
  vfs_open tr _ _ _ := (0, tr.length + 1)
  vfs_path _ path _ _ := path
  VOP_STAT _ _ := (0, 100)
  VOP_ISSEEKABLE _ _ := true
  VOP_READ _ _ _ off len := ⟨0, off + min len 3, len - min len 3⟩
  VOP_WRITE _ _ _ off len := ⟨0, off + min len 3, len - min len 3⟩

/-- A collaborator layer in which `kmalloc` succeeds and every `vfs_open` fails
with the error 19 ("no such file" in OS/161). -/
def env_open_fails : Env where
  copyinstr _ _ := (0, "a.txt")
  kmalloc tr := tr.length + 1000
  vfs_open _ _ _ _ := (19, 0)
  vfs_path _ path _ _ := path
  VOP_STAT _ _ := (0, 100)
  VOP_ISSEEKABLE _ _ := true
  VOP_READ _ _ _ off len := ⟨0, off + len, 0⟩
  VOP_WRITE _ _ _ off len := ⟨0, off + len, 0⟩

/-- State of `init_filesystem` once the table has been allocated and cleared. -/
@[reducible] def init_s1 (s : Kernel) : Kernel :=
  { record_call s Call.kmalloc with
    of_table := fun i => if 0 ≤ i ∧ i < OPEN_MAX then OF_EMPTY else s.of_table i }

/-- Result of the first `create_of` of `init_filesystem`. -/
@[reducible] def init_r1 (E : Env) (s : Kernel) : Int × Kernel :=
  create_of E (init_s1 s) "con:" O_WRONLY 436 1

/-- Result of the second `create_of` of `init_filesystem`. -/
@[reducible] def init_r2 (E : Env) (s : Kernel) : Int × Kernel :=
  create_of E (init_r1 E s).2 "con:" O_RDONLY 436 2

/-- Some record holds the vnode `v`. -/
def holds_vnode (s : Kernel) (v : Nat) : Prop := ∃ q, (s.heap q).vn = v

/-- Number of times the File Object layer has been asked to open a path. -/
def opens_asked (tr : List Call) : Nat :=
  tr.countP (fun c => match c with
    | Call.vfs_open _ _ _ => true
    | _ => false)

/-- The vnode returned by the `vfs_open` that `sys_open` makes itself. -/
@[reducible] def open_vn1 (E : Env) (s : Kernel) (filename flags mode : Int) : Nat :=
  (E.vfs_open (open_s0 s filename).trace (E.copyinstr s.trace filename).2 flags mode).2

/-- The vnode returned by the `vfs_open` made inside `create_of`. -/
@[reducible] def open_vn2 (E : Env) (s : Kernel) (filename flags mode : Int) : Nat :=
  (E.vfs_open ((open_s1 E s filename flags mode).trace ++ [Call.kmalloc])
    (open_path2 E s filename flags mode) flags mode).2

/-- A kernel in which every slot that `get_of` can give out is in use: slot 0,
which `file.c` never writes, is free, slots 1 to 127 point to the blocks at
`2000 + i`, and so do the words that follow the table in memory; the process
has descriptors 0, 1 and 2 on slot 1 and every other descriptor empty. -/
def packed : Kernel where
  fd_table i := if 0 ≤ i ∧ i < 3 then 1 else FD_EMPTY
  of_table i := if i = 0 then OF_EMPTY else i.toNat + 2000
  heap _ := ⟨0, 0, 0, 0, 0⟩
  trace := []

/-- A syscall of this layer with its arguments: one that works on an existing
descriptor, or an `open`. -/
inductive Step where
  | op (o : Op)
  | open (filename flags mode : Int)
deriving DecidableEq, Repr

/-- Runs one syscall. -/
def Step.run (E : Env) (s : Kernel) : Step → Ret
  | Step.op o => o.run E s
  | Step.open filename flags mode => sys_open E s filename flags mode

/-- Runs a sequence of syscalls, first to last, and gives the final state. -/
def run_steps (E : Env) (s : Kernel) (steps : List Step) : Kernel :=
  steps.foldl (fun t step => (step.run E t).st) s

/-- No call of the sequence, run from state `s`, assigns descriptor `fd`: after
each of them the entry of `fd` is `FD_EMPTY`. -/
def never_assigned (E : Env) (fd : Int) : Kernel → List Step → Prop
  | _, [] => True
  | s, step :: rest =>
    (step.run E s).st.fd_table fd = FD_EMPTY ∧ never_assigned E fd (step.run E s).st rest

/-- The call is neither a `dup2` onto `fd` nor an `open` for which `get_fd`
selects `fd` in state `s`. -/
def Step.spares (fd : Int) (s : Kernel) : Step → Prop
  | Step.op o => o.spares fd
  | Step.open _ _ _ => get_fd s ≠ fd

/-- The state `one_open` after a second `open`, which returns descriptor 2. -/
def two_open : Kernel := (sys_open env_ok one_open 0 O_RDWR 420).st

/-- A collaborator layer like `env_ok` whose `VOP_STAT` fails with the error 5. -/
def env_stat_fails : Env where
  copyinstr _ _ := (0, "a.txt")
  kmalloc tr := tr.length + 1000
  vfs_open tr _ _ _ := (0, tr.length + 1)
  vfs_path _ path _ _ := path
  VOP_STAT _ _ := (5, 0)
  VOP_ISSEEKABLE _ _ := true
  VOP_READ _ _ _ off len := ⟨0, off + len, 0⟩
  VOP_WRITE _ _ _ off len := ⟨0, off + len, 0⟩

/-- A collaborator layer like `env_ok` in which the handle that `vfs_open`
returns is determined by the path: two opens of one path give one vnode. -/
def env_by_path : Env where
  copyinstr _ _ := (0, "a.txt")
  kmalloc tr := tr.length + 1000
  vfs_open _ path _ _ := (0, path.length + 2)
  vfs_path _ path _ _ := path
  VOP_STAT _ _ := (0, 100)
  VOP_ISSEEKABLE _ _ := true
  VOP_READ _ _ _ off len := ⟨0, off + len, 0⟩
  VOP_WRITE _ _ _ off len := ⟨0, off + len, 0⟩

/-- A collaborator layer like `env_ok` for the path `"con:"`, whose `vfs_open`
cuts the path buffer at the first colon, as a lookup that splits off the device
name in place does. -/
def env_splits : Env where
  copyinstr _ _ := (0, "con:")
  kmalloc tr := tr.length + 1000
  vfs_open tr _ _ _ := (0, tr.length + 1)
  vfs_path _ path _ _ := String.mk (path.data.takeWhile (fun c => c != ':'))
  VOP_STAT _ _ := (0, 100)
  VOP_ISSEEKABLE _ _ := true
  VOP_READ _ _ _ off len := ⟨0, off + len, 0⟩
  VOP_WRITE _ _ _ off len := ⟨0, off + len, 0⟩

/-- The call is not an `open` whose `create_of`, run in state `s`, would get the
vnode `v` from its `vfs_open`. -/
def Step.avoids (E : Env) (v : Nat) (s : Kernel) : Step → Prop
  | Step.op _ => True
  | Step.open filename flags mode => open_vn2 E s filename flags mode ≠ v

/-- No call of the sequence, run from state `s`, stores the vnode `v`: after
each of them no record holds `v`. -/
def never_held (E : Env) (v : Nat) : Kernel → List Step → Prop
  | _, [] => True
  | s, step :: rest =>
    ¬ holds_vnode (step.run E s).st v ∧ never_held E v (step.run E s).st rest

/-! ## Basic facts -/

@[simp] theorem store_same {α : Type} (t : Int → α) (i : Int) (v : α) :
    store t i v i = v := by
  simp [store]

@[simp] theorem store_other {α : Type} (t : Int → α) (i j : Int) (v : α) (h : j ≠ i) :
    store t i v j = t j := by
  simp [store, h]

@[simp] theorem poke_same (h : Nat → open_file) (p : Nat) (r : open_file) :
    poke h p r p = r := by
  simp [poke]

@[simp] theorem poke_other (h : Nat → open_file) (p q : Nat) (r : open_file) (hq : q ≠ p) :
    poke h p r q = h q := by
  simp [poke, hq]

@[simp] theorem record_call_fd_table (s : Kernel) (c : Call) :
    (record_call s c).fd_table = s.fd_table := rfl

@[simp] theorem record_call_of_table (s : Kernel) (c : Call) :
    (record_call s c).of_table = s.of_table := rfl

@[simp] theorem record_call_heap (s : Kernel) (c : Call) :
    (record_call s c).heap = s.heap := rfl

@[simp] theorem record_call_trace (s : Kernel) (c : Call) :
    (record_call s c).trace = s.trace ++ [c] := rfl

/-- Result of `check_fd`: it is `0` or `EBADF`. -/
theorem check_fd_cases (s : Kernel) (fd : Int) :
    check_fd s fd = 0 ∨ check_fd s fd = EBADF := by
  unfold check_fd
  dsimp only
  split_ifs <;> simp

/-- Characterisation of the descriptors accepted by `check_fd`. -/
theorem check_fd_zero_iff (s : Kernel) (fd : Int) :
    check_fd s fd = 0 ↔
      0 ≤ fd ∧ fd < FD_MAX ∧ 0 ≤ s.fd_table fd ∧ s.fd_table fd < OPEN_MAX ∧
        s.of_table (s.fd_table fd) ≠ OF_EMPTY := by
  unfold check_fd
  dsimp only
  split_ifs with h1 h2 h3
  · simp [EBADF]; omega
  · simp [EBADF]; omega
  · simp [EBADF, h3]
  · simp only [true_iff]
    refine ⟨?_, ?_, ?_, ?_, h3⟩ <;> omega

/-- An empty descriptor is rejected by `check_fd`. -/
theorem check_fd_empty (s : Kernel) (fd : Int) (h : s.fd_table fd = FD_EMPTY) :
    check_fd s fd = EBADF := by
  rcases check_fd_cases s fd with h0 | h0
  · rw [check_fd_zero_iff, h] at h0
    simp [FD_EMPTY] at h0
  · exact h0

/-- The function `check_fd` reads only the two tables. -/
theorem check_fd_congr (s t : Kernel) (fd : Int) (h1 : t.fd_table = s.fd_table)
    (h2 : t.of_table = s.of_table) : check_fd t fd = check_fd s fd := by
  unfold check_fd
  rw [h1, h2]

/-! ## Facts about `sys_close` -/

/-- The value returned by `sys_close` is the verdict of `check_fd`. -/
theorem sys_close_err (s : Kernel) (fd : Int) : (sys_close s fd).err = check_fd s fd := by
  unfold sys_close
  dsimp only
  by_cases h : check_fd s fd = 0
  · rw [if_neg (by simp [h])]
    exact h.symm
  · rw [if_pos h]

/-- A rejected `sys_close` changes nothing. -/
theorem sys_close_bad (s : Kernel) (fd : Int) (h : check_fd s fd ≠ 0) :
    sys_close s fd = ⟨check_fd s fd, none, s⟩ := by
  unfold sys_close
  dsimp only
  rw [if_pos h]

/-- The function `sys_close` never writes to the open-file table. -/
theorem sys_close_of_table (s : Kernel) (fd : Int) :
    (sys_close s fd).st.of_table = s.of_table := by
  unfold sys_close
  dsimp only
  split_ifs <;> rfl

/-- An accepted `sys_close` empties the descriptor and no other. -/
theorem sys_close_fd_table (s : Kernel) (fd : Int) (h : check_fd s fd = 0) :
    (sys_close s fd).st.fd_table = store s.fd_table fd FD_EMPTY := by
  unfold sys_close
  dsimp only
  rw [if_neg (by simp [h])]
  split_ifs <;> rfl

/-- An empty descriptor stays empty across `sys_close` of any descriptor. -/
theorem sys_close_keeps_empty (s : Kernel) (fd g : Int) (h : s.fd_table fd = FD_EMPTY) :
    (sys_close s g).st.fd_table fd = FD_EMPTY := by
  by_cases hg : check_fd s g = 0
  · rw [sys_close_fd_table s g hg]
    by_cases e : fd = g
    · rw [e, store_same]
    · rw [store_other _ _ _ _ e, h]
  · rw [sys_close_bad s g hg]
    exact h

/-- The function `sys_read` never writes to the descriptor table. -/
theorem sys_read_fd_table (E : Env) (s : Kernel) (fd buf buflen : Int) :
    (sys_read E s fd buf buflen).st.fd_table = s.fd_table := by
  unfold sys_read
  dsimp only
  split_ifs <;> rfl

/-- The function `sys_write` never writes to the descriptor table. -/
theorem sys_write_fd_table (E : Env) (s : Kernel) (fd buf nbytes : Int) :
    (sys_write E s fd buf nbytes).st.fd_table = s.fd_table := by
  unfold sys_write
  dsimp only
  split_ifs <;> rfl

/-- The function `sys_lseek` never writes to the descriptor table. -/
theorem sys_lseek_fd_table (E : Env) (s : Kernel) (fd pos whence : Int) :
    (sys_lseek E s fd pos whence).st.fd_table = s.fd_table := by
  unfold sys_lseek
  dsimp only
  split_ifs <;> rfl

/-- An empty descriptor stays empty across a `sys_dup2` onto another one. -/
theorem sys_dup2_keeps_empty (s : Kernel) (fd oldfd newfd : Int)
    (h : s.fd_table fd = FD_EMPTY) (hn : newfd ≠ fd) :
    (sys_dup2 s oldfd newfd).st.fd_table fd = FD_EMPTY := by
  unfold sys_dup2
  dsimp only
  split_ifs with h1 h2 h3 h4 h5 h6
  · exact h
  · exact h
  · exact h
  · exact sys_close_keeps_empty s fd newfd h
  · simp only [store_other _ _ _ _ (Ne.symm hn)]
    exact sys_close_keeps_empty s fd newfd h
  · exact h
  · simp only [store_other _ _ _ _ (Ne.symm hn)]
    exact h

/-- An empty descriptor stays empty across every syscall that does not assign it. -/
theorem run_keeps_empty (E : Env) (s : Kernel) (fd : Int) (op : Op)
    (h : s.fd_table fd = FD_EMPTY) (hop : op.spares fd) :
    (op.run E s).st.fd_table fd = FD_EMPTY := by
  cases op with
  | close g => exact sys_close_keeps_empty s fd g h
  | read g buf buflen => simp only [Op.run, sys_read_fd_table, h]
  | write g buf nbytes => simp only [Op.run, sys_write_fd_table, h]
  | lseek g pos whence => simp only [Op.run, sys_lseek_fd_table, h]
  | dup2 oldfd newfd => exact sys_dup2_keeps_empty s fd oldfd newfd h hop

/-- An empty descriptor stays empty across a sequence of syscalls none of which
assigns it. -/
theorem run_ops_keeps_empty (E : Env) (fd : Int) (ops : List Op) :
    ∀ s : Kernel, s.fd_table fd = FD_EMPTY → (∀ op ∈ ops, op.spares fd) →
      (run_ops E s ops).fd_table fd = FD_EMPTY := by
  induction ops with
  | nil => intro s h _; exact h
  | cons op rest ih =>
    intro s h hops
    have h1 := run_keeps_empty E s fd op h (hops op (List.mem_cons_self _ _))
    exact ih _ h1 (fun o ho => hops o (List.mem_cons_of_mem _ ho))

/-! ## Calls on a descriptor that `check_fd` rejects -/

/-- The code `EBADF` is not the success code. -/
theorem EBADF_ne_zero : EBADF ≠ 0 := by decide

/-- A rejected descriptor makes `sys_read` return at once. -/
theorem sys_read_bad (E : Env) (s : Kernel) (fd buf buflen : Int) (h : check_fd s fd ≠ 0) :
    sys_read E s fd buf buflen = ⟨check_fd s fd, none, s⟩ := by
  unfold sys_read
  dsimp only
  rw [if_pos h]

/-- A rejected descriptor makes `sys_write` return at once. -/
theorem sys_write_bad (E : Env) (s : Kernel) (fd buf nbytes : Int) (h : check_fd s fd ≠ 0) :
    sys_write E s fd buf nbytes = ⟨check_fd s fd, none, s⟩ := by
  unfold sys_write
  dsimp only
  rw [if_pos h]

/-- An unknown `whence` makes `sys_lseek` return at once, whatever the descriptor. -/
theorem sys_lseek_whence (E : Env) (s : Kernel) (fd pos whence : Int)
    (h : ¬ (whence = SEEK_SET ∨ whence = SEEK_CUR ∨ whence = SEEK_END)) :
    sys_lseek E s fd pos whence = ⟨EINVAL, none, s⟩ := by
  unfold sys_lseek
  rw [if_pos h]

/-- With a known `whence`, a rejected descriptor makes `sys_lseek` return at once. -/
theorem sys_lseek_bad (E : Env) (s : Kernel) (fd pos whence : Int)
    (hw : whence = SEEK_SET ∨ whence = SEEK_CUR ∨ whence = SEEK_END)
    (h : check_fd s fd ≠ 0) :
    sys_lseek E s fd pos whence = ⟨check_fd s fd, none, s⟩ := by
  unfold sys_lseek
  dsimp only
  rw [if_neg (not_not.mpr hw), if_pos h]

/-- A rejected `oldfd` makes `sys_dup2` return at once. -/
theorem sys_dup2_bad (s : Kernel) (oldfd newfd : Int) (h : check_fd s oldfd ≠ 0) :
    sys_dup2 s oldfd newfd = ⟨check_fd s oldfd, none, s⟩ := by
  unfold sys_dup2
  dsimp only
  rw [if_pos h]

/-! ## C1: `sys_lseek` on a closed descriptor -/

/-- C1, as stated, fails: after the close of descriptor 1 of `one_open`, a
`sys_lseek` on it with the unknown `whence = 3` returns `EINVAL`, not `EBADF`. -/
theorem closed_fd_lseek_einval :
    check_fd one_open 1 = 0 ∧ (sys_close one_open 1).err = 0 ∧
      (sys_lseek env_ok (sys_close one_open 1).st 1 0 3).err = EINVAL ∧
      (sys_lseek env_ok (sys_close one_open 1).st 1 0 3).err ≠ EBADF := by
  decide

/-! ## The paths through `sys_open` -/

/-- The scan `get_fd` does not depend on the trace. -/
theorem get_fd_record_call (s : Kernel) (c : Call) : get_fd (record_call s c) = get_fd s := rfl

/-- The scan `get_of` does not depend on the trace. -/
theorem get_of_record_call (s : Kernel) (c : Call) : get_of (record_call s c) = get_of s := rfl

/-- Known access-mode bits make the test of `sys_open` on them fail. -/
theorem access_ok_cond (flags : Int) (h : access_ok flags) :
    ¬ (Int.land flags O_ACCMODE ≠ O_RDONLY ∧ Int.land flags O_ACCMODE ≠ O_WRONLY ∧
      Int.land flags O_ACCMODE ≠ O_RDWR) := by
  unfold access_ok at h
  tauto

/-- Unknown access-mode bits make the test of `sys_open` on them succeed. -/
theorem access_bad_cond (flags : Int) (h : ¬ access_ok flags) :
    Int.land flags O_ACCMODE ≠ O_RDONLY ∧ Int.land flags O_ACCMODE ≠ O_WRONLY ∧
      Int.land flags O_ACCMODE ≠ O_RDWR := by
  unfold access_ok at h
  tauto

/-- A successful `create_of`: the block is not `NULL`, the slot points to it, and
the record in it is set up with `ref_count = 0` and `offset = 0`. -/
theorem create_of_ok (E : Env) (s : Kernel) (filename : String) (flags mode slot : Int)
    (h : (create_of E s filename flags mode slot).1 = 0) :
    E.kmalloc s.trace ≠ 0 ∧
      (create_of E s filename flags mode slot).2.fd_table = s.fd_table ∧
      (create_of E s filename flags mode slot).2.of_table =
        store s.of_table slot (E.kmalloc s.trace) ∧
      (create_of E s filename flags mode slot).2.heap =
        poke s.heap (E.kmalloc s.trace)
          { vn := (E.vfs_open (s.trace ++ [Call.kmalloc]) filename flags mode).2,
            ref_count := 0, offset := 0, mode := mode, flags := flags } ∧
      (create_of E s filename flags mode slot).2.trace =
        s.trace ++ [Call.kmalloc] ++ [Call.vfs_open filename flags mode] := by
  unfold create_of at h ⊢
  dsimp only at h ⊢
  split_ifs at h ⊢ with h1 h2
  · exact absurd h (show ENOMEM ≠ 0 by decide)
  · exact absurd h h2
  · exact ⟨h1, rfl, rfl, rfl, rfl⟩

/-- Path of `sys_open` on which `copyinstr` fails. -/
theorem sys_open_copy_fail (E : Env) (s : Kernel) (filename flags mode : Int)
    (hc : (E.copyinstr s.trace filename).1 ≠ 0) :
    sys_open E s filename flags mode =
      ⟨(E.copyinstr s.trace filename).1, none, open_s0 s filename⟩ := by
  unfold sys_open
  dsimp only
  rw [if_pos hc]

/-- Path of `sys_open` that ends at `EINVAL`. -/
theorem sys_open_einval (E : Env) (s : Kernel) (filename flags mode : Int)
    (hc : (E.copyinstr s.trace filename).1 = 0) (hm : ¬ access_ok flags) :
    sys_open E s filename flags mode = ⟨EINVAL, none, open_s0 s filename⟩ := by
  unfold sys_open
  dsimp only
  rw [if_neg (not_not.mpr hc), if_pos (access_bad_cond flags hm)]

/-- Path of `sys_open` on which its own `vfs_open` fails. -/
theorem sys_open_vfs_fail (E : Env) (s : Kernel) (filename flags mode : Int)
    (hc : (E.copyinstr s.trace filename).1 = 0) (hm : access_ok flags)
    (ho : (E.vfs_open (open_s0 s filename).trace (E.copyinstr s.trace filename).2
      flags mode).1 ≠ 0) :
    sys_open E s filename flags mode =
      ⟨(E.vfs_open (open_s0 s filename).trace (E.copyinstr s.trace filename).2 flags mode).1,
        none, open_s1 E s filename flags mode⟩ := by
  unfold sys_open
  dsimp only
  rw [if_neg (not_not.mpr hc), if_neg (access_ok_cond flags hm), if_pos ho]

/-- Path of `sys_open` that ends at `EMFILE`. -/
theorem sys_open_emfile (E : Env) (s : Kernel) (filename flags mode : Int)
    (hc : (E.copyinstr s.trace filename).1 = 0) (hm : access_ok flags)
    (ho : (E.vfs_open (open_s0 s filename).trace (E.copyinstr s.trace filename).2
      flags mode).1 = 0)
    (hfd : get_fd s = FD_MAX) :
    sys_open E s filename flags mode = ⟨EMFILE, none, open_s1 E s filename flags mode⟩ := by
  unfold sys_open
  dsimp only
  rw [if_neg (not_not.mpr hc), if_neg (access_ok_cond flags hm), if_neg (not_not.mpr ho),
    if_pos (show get_fd (open_s1 E s filename flags mode) = FD_MAX from hfd)]

/-- Path of `sys_open` that ends at `ENFILE`. -/
theorem sys_open_enfile (E : Env) (s : Kernel) (filename flags mode : Int)
    (hc : (E.copyinstr s.trace filename).1 = 0) (hm : access_ok flags)
    (ho : (E.vfs_open (open_s0 s filename).trace (E.copyinstr s.trace filename).2
      flags mode).1 = 0)
    (hfd : get_fd s ≠ FD_MAX) (hof : get_of s = OPEN_MAX) :
    sys_open E s filename flags mode = ⟨ENFILE, none, open_s1 E s filename flags mode⟩ := by
  unfold sys_open
  dsimp only
  rw [if_neg (not_not.mpr hc), if_neg (access_ok_cond flags hm), if_neg (not_not.mpr ho),
    if_neg (show ¬ get_fd (open_s1 E s filename flags mode) = FD_MAX from hfd),
    if_pos (show get_of (open_s1 E s filename flags mode) = OPEN_MAX from hof)]

/-- Path of `sys_open` on which `create_of` fails. -/
theorem sys_open_create_fail (E : Env) (s : Kernel) (filename flags mode : Int)
    (hc : (E.copyinstr s.trace filename).1 = 0) (hm : access_ok flags)
    (ho : (E.vfs_open (open_s0 s filename).trace (E.copyinstr s.trace filename).2
      flags mode).1 = 0)
    (hfd : get_fd s ≠ FD_MAX) (hof : get_of s ≠ OPEN_MAX)
    (hcr : (open_cr E s filename flags mode).1 ≠ 0) :
    sys_open E s filename flags mode =
      ⟨(open_cr E s filename flags mode).1, none, (open_cr E s filename flags mode).2⟩ := by
  unfold sys_open
  dsimp only
  rw [if_neg (not_not.mpr hc), if_neg (access_ok_cond flags hm), if_neg (not_not.mpr ho),
    if_neg (show ¬ get_fd (open_s1 E s filename flags mode) = FD_MAX from hfd),
    if_neg (show ¬ get_of (open_s1 E s filename flags mode) = OPEN_MAX from hof),
    if_pos (show (create_of E (open_s1 E s filename flags mode)
      (open_path2 E s filename flags mode) flags mode
      (get_of (open_s1 E s filename flags mode))).1 ≠ 0 from hcr)]
  rfl

/-- Path of `sys_open` that succeeds without `O_APPEND`. -/
theorem sys_open_plain (E : Env) (s : Kernel) (filename flags mode : Int)
    (hc : (E.copyinstr s.trace filename).1 = 0) (hm : access_ok flags)
    (ho : (E.vfs_open (open_s0 s filename).trace (E.copyinstr s.trace filename).2
      flags mode).1 = 0)
    (hfd : get_fd s ≠ FD_MAX) (hof : get_of s ≠ OPEN_MAX)
    (hcr : (open_cr E s filename flags mode).1 = 0)
    (ha : Int.land flags O_APPEND = 0) :
    sys_open E s filename flags mode =
      ⟨0, some (get_fd s), open_s2 E s filename flags mode⟩ := by
  unfold sys_open
  dsimp only
  rw [if_neg (not_not.mpr hc), if_neg (access_ok_cond flags hm), if_neg (not_not.mpr ho),
    if_neg (show ¬ get_fd (open_s1 E s filename flags mode) = FD_MAX from hfd),
    if_neg (show ¬ get_of (open_s1 E s filename flags mode) = OPEN_MAX from hof),
    if_neg (show ¬ (create_of E (open_s1 E s filename flags mode)
      (open_path2 E s filename flags mode) flags mode
      (get_of (open_s1 E s filename flags mode))).1 ≠ 0 from not_not.mpr hcr),
    if_neg (not_not.mpr ha)]
  rfl

/-- Path of `sys_open` on which the `VOP_STAT` made for `O_APPEND` fails. -/
theorem sys_open_stat_fail (E : Env) (s : Kernel) (filename flags mode : Int)
    (hc : (E.copyinstr s.trace filename).1 = 0) (hm : access_ok flags)
    (ho : (E.vfs_open (open_s0 s filename).trace (E.copyinstr s.trace filename).2
      flags mode).1 = 0)
    (hfd : get_fd s ≠ FD_MAX) (hof : get_of s ≠ OPEN_MAX)
    (hcr : (open_cr E s filename flags mode).1 = 0)
    (ha : Int.land flags O_APPEND ≠ 0)
    (hst : (open_stat E s filename flags mode).1 ≠ 0) :
    sys_open E s filename flags mode =
      ⟨(open_stat E s filename flags mode).1, none,
        record_call (open_s2 E s filename flags mode)
          (Call.VOP_STAT ((open_cr E s filename flags mode).2.heap
            ((open_cr E s filename flags mode).2.of_table (get_of s))).vn)⟩ := by
  unfold sys_open
  dsimp only
  simp only [get_fd_record_call, get_of_record_call]
  rw [if_neg (not_not.mpr hc), if_neg (access_ok_cond flags hm), if_neg (not_not.mpr ho),
    if_neg hfd, if_neg hof, if_neg (not_not.mpr hcr), if_pos ha, if_pos hst]

/-- Path of `sys_open` that succeeds with `O_APPEND`. -/
theorem sys_open_append (E : Env) (s : Kernel) (filename flags mode : Int)
    (hc : (E.copyinstr s.trace filename).1 = 0) (hm : access_ok flags)
    (ho : (E.vfs_open (open_s0 s filename).trace (E.copyinstr s.trace filename).2
      flags mode).1 = 0)
    (hfd : get_fd s ≠ FD_MAX) (hof : get_of s ≠ OPEN_MAX)
    (hcr : (open_cr E s filename flags mode).1 = 0)
    (ha : Int.land flags O_APPEND ≠ 0)
    (hst : (open_stat E s filename flags mode).1 = 0) :
    sys_open E s filename flags mode =
      ⟨0, some (get_fd s),
        { record_call (open_s2 E s filename flags mode)
            (Call.VOP_STAT ((open_cr E s filename flags mode).2.heap
              ((open_cr E s filename flags mode).2.of_table (get_of s))).vn) with
          heap := poke (open_cr E s filename flags mode).2.heap
            ((open_cr E s filename flags mode).2.of_table (get_of s))
            { (open_cr E s filename flags mode).2.heap
                ((open_cr E s filename flags mode).2.of_table (get_of s)) with
              offset := (open_stat E s filename flags mode).2 } }⟩ := by
  unfold sys_open
  dsimp only
  simp only [get_fd_record_call, get_of_record_call]
  rw [if_neg (not_not.mpr hc), if_neg (access_ok_cond flags hm), if_neg (not_not.mpr ho),
    if_neg hfd, if_neg hof, if_neg (not_not.mpr hcr), if_pos ha, if_neg (not_not.mpr hst)]
  rfl

/-- What a successful `sys_open` has done. -/
theorem sys_open_ok (E : Env) (s : Kernel) (filename flags mode : Int)
    (h : (sys_open E s filename flags mode).err = 0) :
    (E.copyinstr s.trace filename).1 = 0 ∧ access_ok flags ∧
      get_fd s ≠ FD_MAX ∧ get_of s ≠ OPEN_MAX ∧
      E.kmalloc (open_s1 E s filename flags mode).trace ≠ 0 ∧
      (sys_open E s filename flags mode).rtn = some (get_fd s) ∧
      (sys_open E s filename flags mode).st.fd_table =
        store s.fd_table (get_fd s) (get_of s) ∧
      (sys_open E s filename flags mode).st.of_table =
        store s.of_table (get_of s) (E.kmalloc (open_s1 E s filename flags mode).trace) ∧
      (∀ q, q ≠ E.kmalloc (open_s1 E s filename flags mode).trace →
        (sys_open E s filename flags mode).st.heap q = s.heap q) ∧
      ((sys_open E s filename flags mode).st.heap
        (E.kmalloc (open_s1 E s filename flags mode).trace)).ref_count = 0 ∧
      ((sys_open E s filename flags mode).st.heap
        (E.kmalloc (open_s1 E s filename flags mode).trace)).mode = mode ∧
      ((sys_open E s filename flags mode).st.heap
        (E.kmalloc (open_s1 E s filename flags mode).trace)).flags = flags ∧
      (Int.land flags O_APPEND = 0 →
        ((sys_open E s filename flags mode).st.heap
          (E.kmalloc (open_s1 E s filename flags mode).trace)).offset = 0) := by
  by_cases hc : (E.copyinstr s.trace filename).1 = 0
  swap
  · rw [sys_open_copy_fail E s filename flags mode hc] at h
    exact absurd h hc
  by_cases hm : access_ok flags
  swap
  · rw [sys_open_einval E s filename flags mode hc hm] at h
    exact absurd h (show EINVAL ≠ 0 by decide)
  by_cases ho : (E.vfs_open (open_s0 s filename).trace (E.copyinstr s.trace filename).2
      flags mode).1 = 0
  swap
  · rw [sys_open_vfs_fail E s filename flags mode hc hm ho] at h
    exact absurd h ho
  by_cases hfd : get_fd s = FD_MAX
  · rw [sys_open_emfile E s filename flags mode hc hm ho hfd] at h
    exact absurd h (show EMFILE ≠ 0 by decide)
  by_cases hof : get_of s = OPEN_MAX
  · rw [sys_open_enfile E s filename flags mode hc hm ho hfd hof] at h
    exact absurd h (show ENFILE ≠ 0 by decide)
  by_cases hcr : (open_cr E s filename flags mode).1 = 0
  swap
  · rw [sys_open_create_fail E s filename flags mode hc hm ho hfd hof hcr] at h
    exact absurd h hcr
  obtain ⟨c1, c2, c3, c4, -⟩ := create_of_ok _ _ _ _ _ _ hcr
  have d2 : (open_cr E s filename flags mode).2.fd_table = s.fd_table := c2
  have d3 : (open_cr E s filename flags mode).2.of_table =
      store s.of_table (get_of s) (E.kmalloc (open_s1 E s filename flags mode).trace) := c3
  have d4 : (open_cr E s filename flags mode).2.heap =
      poke s.heap (E.kmalloc (open_s1 E s filename flags mode).trace)
        { vn := (E.vfs_open ((open_s1 E s filename flags mode).trace ++ [Call.kmalloc])
            (open_path2 E s filename flags mode) flags mode).2,
          ref_count := 0, offset := 0, mode := mode, flags := flags } := c4
  refine ⟨hc, hm, hfd, hof, c1, ?_⟩
  by_cases ha : Int.land flags O_APPEND = 0
  · rw [sys_open_plain E s filename flags mode hc hm ho hfd hof hcr ha]
    dsimp only
    rw [d2, d3, d4]
    refine ⟨rfl, rfl, rfl, ?_, ?_, ?_, ?_, ?_⟩
    · intro q hq
      rw [poke_other _ _ _ _ hq]
    all_goals simp
  · by_cases hst : (open_stat E s filename flags mode).1 = 0
    swap
    · rw [sys_open_stat_fail E s filename flags mode hc hm ho hfd hof hcr ha hst] at h
      exact absurd h hst
    rw [sys_open_append E s filename flags mode hc hm ho hfd hof hcr ha hst]
    dsimp only [record_call_fd_table, record_call_of_table]
    rw [d2, d3, d4]
    refine ⟨rfl, rfl, rfl, ?_, ?_, ?_, ?_, ?_⟩
    · intro q hq
      rw [store_same, poke_other _ _ _ _ hq, poke_other _ _ _ _ hq]
    all_goals simp [ha]

/-- An accepted `sys_close` calls no collaborator unless the count it decrements
was exactly `1`. -/
theorem sys_close_quiet (s : Kernel) (fd : Int) (h : check_fd s fd = 0)
    (hrc : (s.heap (s.of_table (s.fd_table fd))).ref_count ≠ 1) :
    (sys_close s fd).st.trace = s.trace := by
  unfold sys_close
  dsimp only
  rw [if_neg (by simp [h]), if_neg (by omega)]

/-- A successful `sys_open` leaves the new record, to which the returned
descriptor leads, with `ref_count = 0`; a `sys_close` of that descriptor then
calls no collaborator, so the vnode is not released. -/
theorem sys_open_count_zero (E : Env) (s : Kernel) (filename flags mode : Int)
    (h : (sys_open E s filename flags mode).err = 0) :
    ((sys_open E s filename flags mode).st.heap
        ((sys_open E s filename flags mode).st.of_table
          ((sys_open E s filename flags mode).st.fd_table (get_fd s)))).ref_count = 0 ∧
      (sys_close (sys_open E s filename flags mode).st (get_fd s)).st.trace =
        (sys_open E s filename flags mode).st.trace := by
  obtain ⟨-, -, -, -, -, -, h1, h2, -, h3, -⟩ := sys_open_ok E s filename flags mode h
  have hz : ((sys_open E s filename flags mode).st.heap
        ((sys_open E s filename flags mode).st.of_table
          ((sys_open E s filename flags mode).st.fd_table (get_fd s)))).ref_count = 0 := by
    rw [h1, store_same, h2, store_same]
    exact h3
  refine ⟨hz, ?_⟩
  by_cases hv : check_fd (sys_open E s filename flags mode).st (get_fd s) = 0
  · exact sys_close_quiet _ _ hv (by rw [hz]; decide)
  · rw [sys_close_bad _ _ hv]

/-! ## C2, C3, C4: the count of a new record starts at zero -/

/-- C2, at `n = 0`: in `blank`, `sys_open` succeeds and returns descriptor 1 on a
record with vnode 4; the `sys_close` of that one descriptor succeeds, moves the
count from `0` to `-1`, and the trace afterwards holds no `vfs_close` of the
vnode: it is released zero times, not once. -/
theorem open_close_releases_nothing :
    (sys_open env_ok blank 0 O_RDWR 420).err = 0 ∧
      (sys_open env_ok blank 0 O_RDWR 420).rtn = some 1 ∧
      (one_open.heap (one_open.of_table (one_open.fd_table 1))).vn = 4 ∧
      (sys_close one_open 1).err = 0 ∧
      releases (sys_close one_open 1).st.trace 4 = 0 ∧
      ((sys_close one_open 1).st.heap (one_open.of_table 1)).ref_count = -1 := by
  decide

/-- C3, at `a = 1`, `b = 5`: after `sys_open`, `sys_dup2 (1, 5)` and
`sys_close (1)`, all successful, descriptor 5 still passes `check_fd` and leads
to the same record, but the vnode of that record has already been released by
the close of descriptor 1; the following `sys_close (5)` succeeds and releases
nothing. -/
theorem dup_close_releases_early :
    (sys_dup2 one_open 1 5).err = 0 ∧
      (sys_close one_open_dup 1).err = 0 ∧
      check_fd one_open_dup_close 5 = 0 ∧
      one_open_dup_close.of_table (one_open_dup_close.fd_table 5) =
        one_open.of_table (one_open.fd_table 1) ∧
      (one_open.heap (one_open.of_table (one_open.fd_table 1))).vn = 4 ∧
      releases one_open_dup.trace 4 = 0 ∧
      releases one_open_dup_close.trace 4 = 1 ∧
      (sys_close one_open_dup_close 5).err = 0 ∧
      (sys_close one_open_dup_close 5).st.trace = one_open_dup_close.trace := by
  decide

/-- C4, in `blank`: right after the successful `sys_open (O_RDWR, 0644)`, which
returns descriptor 1, the new record has `offset = 0`, `flags = O_RDWR` and
`mode = 0644`, but `ref_count = 0`, although descriptor 1 points at it. -/
theorem open_count_is_zero :
    (sys_open env_ok blank 0 O_RDWR 420).err = 0 ∧
      (sys_open env_ok blank 0 O_RDWR 420).rtn = some 1 ∧
      check_fd one_open 1 = 0 ∧
      one_open.heap (one_open.of_table (one_open.fd_table 1)) =
        { vn := 4, ref_count := 0, offset := 0, mode := 420, flags := O_RDWR } := by
  decide

/-! ## C5, C6, C7: `sys_dup2` -/

/-- C5: for every `fd` that `check_fd` accepts, `sys_dup2 (fd, fd)` returns `0`
with result `fd` and leaves the whole state as it was: the descriptor table, the
open-file table, every record (so every `ref_count` and `offset`) and the trace
of calls to the collaborators (so no vnode operation is made). -/
theorem dup2_same_fd (s : Kernel) (fd : Int) (h : check_fd s fd = 0) :
    (sys_dup2 s fd fd).err = 0 ∧ (sys_dup2 s fd fd).rtn = some fd ∧
      (sys_dup2 s fd fd).st = s := by
  have hr := (check_fd_zero_iff s fd).mp h
  unfold sys_dup2
  dsimp only
  rw [if_neg (by simp [h]), if_neg (by omega), if_pos rfl]
  exact ⟨rfl, rfl, rfl⟩

/-- C5, witness: descriptor 1 of `one_open`. -/
theorem dup2_same_fd_witness :
    check_fd one_open 1 = 0 ∧ (sys_dup2 one_open 1 1).err = 0 ∧
      (sys_dup2 one_open 1 1).rtn = some 1 ∧ (sys_dup2 one_open 1 1).st = one_open :=
  ⟨by decide, dup2_same_fd one_open 1 (by decide)⟩

/-- The three tests that open `sys_dup2` passed, the call is the implicit close
(when `newfd` is not empty) followed by the re-pointing of `newfd` and the
increment of the count. -/
theorem sys_dup2_main (s : Kernel) (oldfd newfd : Int) (h : check_fd s oldfd = 0)
    (h0 : 0 ≤ newfd) (h1 : newfd < FD_MAX) (hne : newfd ≠ oldfd) (c : Ret)
    (hc : c = if s.fd_table newfd ≠ FD_EMPTY then sys_close s newfd else ⟨0, none, s⟩) :
    sys_dup2 s oldfd newfd =
      if c.err ≠ 0 then c
      else
        ⟨0, some newfd,
          { fd_table := store c.st.fd_table newfd (c.st.fd_table oldfd)
            of_table := c.st.of_table
            heap := poke c.st.heap (s.of_table (s.fd_table oldfd))
              { c.st.heap (s.of_table (s.fd_table oldfd)) with
                ref_count := (c.st.heap (s.of_table (s.fd_table oldfd))).ref_count + 1 }
            trace := c.st.trace }⟩ := by
  subst hc
  unfold sys_dup2
  dsimp only
  rw [if_neg (by simp [h]), if_neg (by omega), if_neg (Ne.symm hne)]

/-- C6: for every `oldfd` that `check_fd` accepts and every `newfd` in
`[0, FD_MAX)`, different from `oldfd`, whose entry is `FD_EMPTY`,
`sys_dup2 (oldfd, newfd)` returns `0` with result `newfd`; afterwards `newfd`
holds the entry of `oldfd`, every other descriptor entry and the whole open-file
table are as before, the record of `oldfd` has its `ref_count` one higher and
its other fields as before, every other record is as before, and no call to a
collaborator has been made. -/
theorem dup2_onto_empty (s : Kernel) (oldfd newfd : Int) (h : check_fd s oldfd = 0)
    (h0 : 0 ≤ newfd) (h1 : newfd < FD_MAX) (hne : newfd ≠ oldfd)
    (he : s.fd_table newfd = FD_EMPTY) :
    (sys_dup2 s oldfd newfd).err = 0 ∧ (sys_dup2 s oldfd newfd).rtn = some newfd ∧
      (sys_dup2 s oldfd newfd).st.fd_table newfd = s.fd_table oldfd ∧
      (∀ j, j ≠ newfd → (sys_dup2 s oldfd newfd).st.fd_table j = s.fd_table j) ∧
      (sys_dup2 s oldfd newfd).st.of_table = s.of_table ∧
      (sys_dup2 s oldfd newfd).st.heap (s.of_table (s.fd_table oldfd)) =
        { s.heap (s.of_table (s.fd_table oldfd)) with
          ref_count := (s.heap (s.of_table (s.fd_table oldfd))).ref_count + 1 } ∧
      (∀ q, q ≠ s.of_table (s.fd_table oldfd) →
        (sys_dup2 s oldfd newfd).st.heap q = s.heap q) ∧
      (sys_dup2 s oldfd newfd).st.trace = s.trace := by
  rw [sys_dup2_main s oldfd newfd h h0 h1 hne ⟨0, none, s⟩ (by rw [if_neg (not_not.mpr he)])]
  dsimp only
  rw [if_neg (by simp)]
  refine ⟨rfl, rfl, store_same _ _ _, ?_, rfl, poke_same _ _ _, ?_, rfl⟩
  · intro j hj
    exact store_other _ _ _ _ hj
  · intro q hq
    exact poke_other _ _ _ _ hq

/-- C6, witness: `dup2 (1, 5)` in `one_open`, where descriptor 5 is empty. -/
theorem dup2_onto_empty_witness :
    check_fd one_open 1 = 0 ∧ one_open.fd_table 5 = FD_EMPTY ∧
      (sys_dup2 one_open 1 5).err = 0 ∧
      ((sys_dup2 one_open 1 5).st.heap (one_open.of_table (one_open.fd_table 1))).ref_count
        = (one_open.heap (one_open.of_table (one_open.fd_table 1))).ref_count + 1 :=
  have r := dup2_onto_empty one_open 1 5 (by decide) (by decide) (by decide) (by decide)
    (by decide)
  ⟨by decide, by decide, r.1, by rw [r.2.2.2.2.2.1]⟩

/-- C7: `sys_dup2 (oldfd, newfd)` returns `EBADF` and leaves the whole state as
it was whenever `check_fd` rejects `oldfd` or `newfd` is outside `[0, FD_MAX)`.
When `oldfd` is accepted and `newfd`, in range and different from `oldfd`, holds
a non-empty entry, `sys_close (newfd)` is run first: if it fails, `sys_dup2`
returns its error (`EBADF`) and the state is as before, `newfd` not re-pointed;
if it succeeds, `sys_dup2` returns `0` with result `newfd`, and its final state
is the state left by that close with `newfd` re-pointed to the entry of `oldfd`
and the count of the record of `oldfd` incremented. -/
theorem dup2_errors_and_implicit_close (s : Kernel) (oldfd newfd : Int) :
    ((check_fd s oldfd ≠ 0 ∨ newfd < 0 ∨ FD_MAX ≤ newfd) →
        sys_dup2 s oldfd newfd = ⟨EBADF, none, s⟩) ∧
      (check_fd s oldfd = 0 → 0 ≤ newfd → newfd < FD_MAX → newfd ≠ oldfd →
        s.fd_table newfd ≠ FD_EMPTY →
        ((sys_close s newfd).err ≠ 0 →
          (sys_dup2 s oldfd newfd).err = (sys_close s newfd).err ∧
          (sys_dup2 s oldfd newfd).err = EBADF ∧
          (sys_dup2 s oldfd newfd).st = s) ∧
        ((sys_close s newfd).err = 0 →
          (sys_dup2 s oldfd newfd).err = 0 ∧
          (sys_dup2 s oldfd newfd).rtn = some newfd ∧
          (sys_dup2 s oldfd newfd).st.fd_table =
            store (sys_close s newfd).st.fd_table newfd (s.fd_table oldfd) ∧
          (sys_dup2 s oldfd newfd).st.of_table = s.of_table ∧
          (sys_dup2 s oldfd newfd).st.heap =
            poke (sys_close s newfd).st.heap (s.of_table (s.fd_table oldfd))
              { (sys_close s newfd).st.heap (s.of_table (s.fd_table oldfd)) with
                ref_count :=
                  ((sys_close s newfd).st.heap (s.of_table (s.fd_table oldfd))).ref_count
                    + 1 } ∧
          (sys_dup2 s oldfd newfd).st.trace = (sys_close s newfd).st.trace)) := by
  constructor
  · intro hbad
    by_cases h : check_fd s oldfd = 0
    · have hr : newfd < 0 ∨ newfd ≥ FD_MAX := by
        rcases hbad with hb | hb | hb
        · exact absurd h hb
        · exact Or.inl hb
        · exact Or.inr hb
      unfold sys_dup2
      dsimp only
      rw [if_neg (by simp [h]), if_pos hr]
    · rw [sys_dup2_bad s oldfd newfd h]
      rcases check_fd_cases s oldfd with h' | h'
      · exact absurd h' h
      · rw [h']
  · intro h h0 h1 hne hfull
    rw [sys_dup2_main s oldfd newfd h h0 h1 hne (sys_close s newfd) (by rw [if_pos hfull])]
    constructor
    · intro hfail
      rw [if_pos hfail]
      have hv : check_fd s newfd ≠ 0 := by rwa [sys_close_err] at hfail
      refine ⟨rfl, ?_, ?_⟩
      · rw [sys_close_err]
        rcases check_fd_cases s newfd with h' | h'
        · exact absurd h' hv
        · exact h'
      · rw [sys_close_bad s newfd hv]
    · intro hok
      rw [if_neg (not_not.mpr hok)]
      have hv : check_fd s newfd = 0 := by rwa [sys_close_err] at hok
      refine ⟨rfl, rfl, ?_, sys_close_of_table s newfd, rfl, rfl⟩
      dsimp only
      rw [sys_close_fd_table s newfd hv, store_other _ _ _ _ (Ne.symm hne)]

/-- C7, witness: in `one_open_dup`, where descriptors 1 and 5 are both open,
`dup2 (1, 5)` closes 5 first and succeeds, and `dup2 (7, 5)` fails on the empty
descriptor 7. -/
theorem dup2_errors_and_implicit_close_witness :
    check_fd one_open_dup 1 = 0 ∧ one_open_dup.fd_table 5 ≠ FD_EMPTY ∧
      (sys_close one_open_dup 5).err = 0 ∧
      (sys_dup2 one_open_dup 1 5).err = 0 ∧
      (sys_dup2 one_open_dup 1 5).rtn = some 5 ∧
      check_fd one_open_dup 7 ≠ 0 ∧
      sys_dup2 one_open_dup 7 5 = ⟨EBADF, none, one_open_dup⟩ :=
  have hok : (sys_close one_open_dup 5).err = 0 := by decide
  have r := ((dup2_errors_and_implicit_close one_open_dup 1 5).2 (by decide) (by decide)
    (by decide) (by decide) (by decide)).2 hok
  ⟨by decide, by decide, hok, r.1, r.2.1, by decide,
    (dup2_errors_and_implicit_close one_open_dup 7 5).1 (Or.inl (by decide))⟩

/-! ## The scan shared by `get_fd` and `get_of` -/

/-- The scan entered at `i` with `n` passes left, when none of the cells
`i + 1, ..., i + n` is empty, falls through and gives `i + n + 1`. -/
theorem scan_loop_none (is_empty : Int → Bool) :
    ∀ (n : Nat) (i : Int), (∀ k, i < k → k ≤ i + n → is_empty k = false) →
      scan_loop is_empty n i = i + n + 1 := by
  intro n
  induction n with
  | zero => intro i _; simp [scan_loop]
  | succ m ih =>
    intro i h
    have h1 : is_empty (i + 1) = false := h (i + 1) (by omega) (by push_cast; omega)
    rw [scan_loop, h1, ih (i + 1) (fun k hk hk' => h k (by omega) (by push_cast; omega))]
    simp only [Bool.false_eq_true, if_false]
    push_cast
    ring

/-- The scan entered at `i` with `n` passes left gives the first empty cell
among `i + 1, ..., i + n`, when there is one. -/
theorem scan_loop_found (is_empty : Int → Bool) :
    ∀ (n : Nat) (i j : Int), i < j → j ≤ i + n → is_empty j = true →
      (∀ k, i < k → k < j → is_empty k = false) → scan_loop is_empty n i = j := by
  intro n
  induction n with
  | zero => intro i j h1 h2; simp at h2; omega
  | succ m ih =>
    intro i j h1 h2 h3 h4
    rw [scan_loop]
    by_cases e : j = i + 1
    · rw [← e, h3, if_pos rfl]
    · rw [h4 (i + 1) (by omega) (by omega)]
      simp only [Bool.false_eq_true, if_false]
      exact ih (i + 1) j (by omega) (by push_cast at h2; omega) h3
        (fun k hk hk' => h4 k (by omega) hk')

/-- Entries 1 to `FD_MAX - 1` occupied: `get_fd` reads the word at index
`FD_MAX`, and gives `FD_MAX` if that word is `FD_EMPTY` and `FD_MAX + 1` if not. -/
theorem get_fd_full (s : Kernel) (h : ∀ i, 1 ≤ i → i < FD_MAX → s.fd_table i ≠ FD_EMPTY) :
    get_fd s = if s.fd_table FD_MAX = FD_EMPTY then FD_MAX else FD_MAX + 1 := by
  unfold get_fd
  split_ifs with hw
  · apply scan_loop_found
    · decide
    · decide
    · simpa using hw
    · intro k hk hk'
      simpa using h k (by omega) hk'
  · have := scan_loop_none (fun i => decide (s.fd_table i = FD_EMPTY)) FD_MAX.toNat 0
      (fun k hk hk' => by
        by_cases e : k = FD_MAX
        · simpa [e] using hw
        · have hk2 : k ≤ 128 := by simpa [FD_MAX] using hk'
          have : k < FD_MAX := by
            have : k ≠ 128 := e
            simp only [FD_MAX]; omega
          simpa using h k (by omega) this)
    rw [this]
    decide

/-- Slots 1 to `OPEN_MAX - 1` in use: `get_of` reads the word at index
`OPEN_MAX`, and gives `OPEN_MAX` if that word is `OF_EMPTY` and `OPEN_MAX + 1`
if not. -/
theorem get_of_full (s : Kernel) (h : ∀ i, 1 ≤ i → i < OPEN_MAX → s.of_table i ≠ OF_EMPTY) :
    get_of s = if s.of_table OPEN_MAX = OF_EMPTY then OPEN_MAX else OPEN_MAX + 1 := by
  unfold get_of
  split_ifs with hw
  · apply scan_loop_found
    · decide
    · decide
    · simpa using hw
    · intro k hk hk'
      simpa using h k (by omega) hk'
  · have := scan_loop_none (fun i => decide (s.of_table i = OF_EMPTY)) OPEN_MAX.toNat 0
      (fun k hk hk' => by
        by_cases e : k = OPEN_MAX
        · simpa [e] using hw
        · have hk2 : k ≤ 128 := by simpa [OPEN_MAX] using hk'
          have : k < OPEN_MAX := by
            have : k ≠ 128 := e
            simp only [OPEN_MAX]; omega
          simpa using h k (by omega) this)
    rw [this]
    decide

/-- On a descriptor table whose entries 1 to `FD_MAX - 1` are occupied,
`sys_open` (path, access mode and `vfs_open` fine) leaves by the `EMFILE` exit,
both tables untouched, exactly when the word at index `FD_MAX`, one past the
table, is `FD_EMPTY`; otherwise `get_fd` gives `FD_MAX + 1` and the call goes on
to `get_of` and `create_of`. -/
theorem sys_open_full_fd_table (E : Env) (s : Kernel) (filename flags mode : Int)
    (hc : (E.copyinstr s.trace filename).1 = 0) (hm : access_ok flags)
    (ho : (E.vfs_open (open_s0 s filename).trace (E.copyinstr s.trace filename).2
      flags mode).1 = 0)
    (h : ∀ i, 1 ≤ i → i < FD_MAX → s.fd_table i ≠ FD_EMPTY) :
    (s.fd_table FD_MAX = FD_EMPTY →
        (sys_open E s filename flags mode).err = EMFILE ∧
        (sys_open E s filename flags mode).st.fd_table = s.fd_table ∧
        (sys_open E s filename flags mode).st.of_table = s.of_table) ∧
      (s.fd_table FD_MAX ≠ FD_EMPTY → get_fd s = FD_MAX + 1 ∧ get_fd s ≠ FD_MAX) := by
  constructor
  · intro hw
    have hfd : get_fd s = FD_MAX := by rw [get_fd_full s h, if_pos hw]
    rw [sys_open_emfile E s filename flags mode hc hm ho hfd]
    exact ⟨rfl, rfl, rfl⟩
  · intro hw
    have hfd : get_fd s = FD_MAX + 1 := by rw [get_fd_full s h, if_neg hw]
    exact ⟨hfd, by rw [hfd]; decide⟩

/-- On an open-file table whose slots 1 to `OPEN_MAX - 1` are in use, with a
descriptor found by `get_fd`, `sys_open` (path, access mode and `vfs_open` fine)
leaves by the `ENFILE` exit, both tables untouched, exactly when the word at
index `OPEN_MAX`, one past the table, is `OF_EMPTY`; otherwise `get_of` gives
`OPEN_MAX + 1` and the call goes on to `create_of` on that index. -/
theorem sys_open_full_of_table (E : Env) (s : Kernel) (filename flags mode : Int)
    (hc : (E.copyinstr s.trace filename).1 = 0) (hm : access_ok flags)
    (ho : (E.vfs_open (open_s0 s filename).trace (E.copyinstr s.trace filename).2
      flags mode).1 = 0)
    (hfd : get_fd s ≠ FD_MAX)
    (h : ∀ i, 1 ≤ i → i < OPEN_MAX → s.of_table i ≠ OF_EMPTY) :
    (s.of_table OPEN_MAX = OF_EMPTY →
        (sys_open E s filename flags mode).err = ENFILE ∧
        (sys_open E s filename flags mode).st.fd_table = s.fd_table ∧
        (sys_open E s filename flags mode).st.of_table = s.of_table) ∧
      (s.of_table OPEN_MAX ≠ OF_EMPTY → get_of s = OPEN_MAX + 1 ∧ get_of s ≠ OPEN_MAX) := by
  constructor
  · intro hw
    have hof : get_of s = OPEN_MAX := by rw [get_of_full s h, if_pos hw]
    rw [sys_open_enfile E s filename flags mode hc hm ho hfd hof]
    exact ⟨rfl, rfl, rfl⟩
  · intro hw
    have hof : get_of s = OPEN_MAX + 1 := by rw [get_of_full s h, if_neg hw]
    exact ⟨hof, by rw [hof]; decide⟩

/-! ## C8, C10: the scans `get_fd` and `get_of` on a full descriptor table -/

set_option maxRecDepth 100000 in
/-- C8, in `crowded`: every descriptor entry in `[0, FD_MAX)` is occupied, the
path copy-in, the access mode and the `vfs_open` are fine, yet `get_fd` gives
`FD_MAX + 1 = 129`, which `sys_open` does not recognise: the call returns `0`
with result 129 instead of `EMFILE`, creates a record in slot 2 and stores the
slot index in the word at index 129, outside the descriptor table. -/
theorem open_on_full_fd_table :
    (∀ i, 0 ≤ i → i < FD_MAX → crowded.fd_table i ≠ FD_EMPTY) ∧
      (env_ok.copyinstr crowded.trace 0).1 = 0 ∧ access_ok O_RDWR ∧
      get_fd crowded = 129 ∧
      (sys_open env_ok crowded 0 O_RDWR 420).err = 0 ∧
      (sys_open env_ok crowded 0 O_RDWR 420).err ≠ EMFILE ∧
      (sys_open env_ok crowded 0 O_RDWR 420).rtn = some 129 ∧
      crowded.of_table 2 = OF_EMPTY ∧
      (sys_open env_ok crowded 0 O_RDWR 420).st.of_table 2 = 1002 ∧
      crowded.fd_table 129 = 0 ∧
      (sys_open env_ok crowded 0 O_RDWR 420).st.fd_table 129 = 2 := by
  refine ⟨?_, by decide, by decide, by decide, by decide, by decide, by decide, by decide,
    by decide, by decide, by decide⟩
  intro i h0 h1
  have h2 : i < 128 := h1
  simp [crowded, h0, h2, FD_EMPTY]

set_option maxRecDepth 100000 in
/-- C10, in `crowded` and in `crammed`: a successful `sys_open` can return the
descriptor 129, which is outside `[0, FD_MAX)` and which `check_fd` rejects
afterwards; and it can return descriptor 3 holding the slot index 129, which is
outside `[0, OPEN_MAX)`, so that `check_fd` rejects descriptor 3 afterwards. -/
theorem open_result_out_of_range :
    (sys_open env_ok crowded 0 O_RDWR 420).err = 0 ∧
      (sys_open env_ok crowded 0 O_RDWR 420).rtn = some 129 ∧
      ¬ (129 < FD_MAX) ∧
      check_fd (sys_open env_ok crowded 0 O_RDWR 420).st 129 = EBADF ∧
      (sys_open env_ok crammed 0 O_RDWR 420).err = 0 ∧
      (sys_open env_ok crammed 0 O_RDWR 420).rtn = some 3 ∧
      (sys_open env_ok crammed 0 O_RDWR 420).st.fd_table 3 = 129 ∧
      ¬ (129 < OPEN_MAX) ∧
      check_fd (sys_open env_ok crammed 0 O_RDWR 420).st 3 = EBADF := by
  decide

/-! ## Bits of the flags -/

/-- The value of `y & 0`. -/
theorem land_zero_right (y : Int) : Int.land y 0 = 0 := by
  cases y with
  | ofNat m => show ((m &&& 0 : Nat) : Int) = 0; simp
  | negSucc m => show ((Nat.ldiff 0 m : Nat) : Int) = 0; simp [Nat.ldiff]

/-- The two low bits of `x` decide `x & 3` and `x & 1`. -/
theorem land_low_bits (x : Int) :
    ∃ b0 b1 : Bool, Int.land x 3 = Int.bit b0 (Int.bit b1 0) ∧ Int.land x 1 = Int.bit b0 0 := by
  refine ⟨Int.bodd x, Int.bodd (Int.div2 x), ?_, ?_⟩
  · have h3 : (3 : Int) = Int.bit true (Int.bit true 0) := by decide
    conv_lhs => rw [← Int.bit_decomp x, ← Int.bit_decomp (Int.div2 x), h3]
    rw [Int.land_bit, Int.land_bit, land_zero_right]
    simp
  · have h1 : (1 : Int) = Int.bit true 0 := by decide
    conv_lhs => rw [← Int.bit_decomp x, h1]
    rw [Int.land_bit, land_zero_right]
    simp

/-- The access-mode bits are unknown exactly when both are set. -/
theorem access_ok_iff (flags : Int) : access_ok flags ↔ Int.land flags O_ACCMODE ≠ 3 := by
  obtain ⟨b0, b1, h3, -⟩ := land_low_bits flags
  unfold access_ok
  rw [show O_ACCMODE = 3 from rfl, h3]
  cases b0 <;> cases b1 <;> decide

/-- With known access-mode bits, bit 0 of the flags is set exactly in mode
`O_WRONLY`. -/
theorem wronly_bit (flags : Int) (h : access_ok flags) :
    Int.land flags O_WRONLY ≠ 0 ↔ Int.land flags O_ACCMODE = O_WRONLY := by
  obtain ⟨b0, b1, h3, h1⟩ := land_low_bits flags
  unfold access_ok at h
  rw [show O_ACCMODE = 3 from rfl, h3] at h ⊢
  rw [show O_WRONLY = 1 from rfl, h1]
  revert h
  cases b0 <;> cases b1 <;> decide

/-- Result of `create_of`: `ENOMEM`, or the result of its `vfs_open`. -/
theorem create_of_err (E : Env) (s : Kernel) (filename : String) (flags mode slot : Int) :
    (create_of E s filename flags mode slot).1 = ENOMEM ∨
      (create_of E s filename flags mode slot).1 =
        (E.vfs_open (s.trace ++ [Call.kmalloc]) filename flags mode).1 := by
  unfold create_of
  dsimp only
  split_ifs with h1 h2
  · exact Or.inl rfl
  · exact Or.inr rfl
  · simp only [ne_eq, not_not] at h2
    exact Or.inr h2.symm

/-! ## C11: the access-mode test of `sys_open` -/

/-- C11, as amended: when the path copy-in succeeds, the access-mode bits
`flags & O_ACCMODE` are none of `O_RDONLY`, `O_WRONLY`, `O_RDWR` exactly when
they equal 3, and then `sys_open` returns `EINVAL` having called no collaborator
but `copyinstr` (so no `vfs_open`), with both tables and all records unchanged;
when the bits are one of the three modes, `sys_open` returns `EINVAL` only if
one of its calls to the File Object layer (its own `vfs_open`, the `vfs_open`
of `create_of`, or the `VOP_STAT` made for `O_APPEND`) returned `EINVAL`. -/
theorem open_einval (E : Env) (s : Kernel) (filename flags mode : Int)
    (hc : (E.copyinstr s.trace filename).1 = 0) :
    (¬ access_ok flags ↔ Int.land flags O_ACCMODE = 3) ∧
      (¬ access_ok flags →
        (sys_open E s filename flags mode).err = EINVAL ∧
        (sys_open E s filename flags mode).st.fd_table = s.fd_table ∧
        (sys_open E s filename flags mode).st.of_table = s.of_table ∧
        (sys_open E s filename flags mode).st.heap = s.heap ∧
        (sys_open E s filename flags mode).st.trace =
          s.trace ++ [Call.copyinstr filename]) ∧
      (access_ok flags → (sys_open E s filename flags mode).err = EINVAL →
        (E.vfs_open (open_s0 s filename).trace (E.copyinstr s.trace filename).2
            flags mode).1 = EINVAL ∨
          (E.vfs_open ((open_s1 E s filename flags mode).trace ++ [Call.kmalloc])
            (open_path2 E s filename flags mode) flags mode).1 = EINVAL ∨
          (open_stat E s filename flags mode).1 = EINVAL) := by
  refine ⟨?_, ?_, ?_⟩
  · rw [access_ok_iff, not_not]
  · intro hm
    rw [sys_open_einval E s filename flags mode hc hm]
    exact ⟨rfl, rfl, rfl, rfl, rfl⟩
  · intro hm h
    by_cases ho : (E.vfs_open (open_s0 s filename).trace (E.copyinstr s.trace filename).2
        flags mode).1 = 0
    swap
    · rw [sys_open_vfs_fail E s filename flags mode hc hm ho] at h
      exact Or.inl h
    by_cases hfd : get_fd s = FD_MAX
    · rw [sys_open_emfile E s filename flags mode hc hm ho hfd] at h
      exact absurd h (show EMFILE ≠ EINVAL by decide)
    by_cases hof : get_of s = OPEN_MAX
    · rw [sys_open_enfile E s filename flags mode hc hm ho hfd hof] at h
      exact absurd h (show ENFILE ≠ EINVAL by decide)
    by_cases hcr : (open_cr E s filename flags mode).1 = 0
    swap
    · rw [sys_open_create_fail E s filename flags mode hc hm ho hfd hof hcr] at h
      have h' : (open_cr E s filename flags mode).1 = EINVAL := h
      rcases create_of_err E (open_s1 E s filename flags mode)
        (open_path2 E s filename flags mode) flags mode (get_of s) with e | e
      · rw [e] at h'
        exact absurd h' (show ENOMEM ≠ EINVAL by decide)
      · exact Or.inr (Or.inl (e ▸ h'))
    by_cases ha : Int.land flags O_APPEND = 0
    · rw [sys_open_plain E s filename flags mode hc hm ho hfd hof hcr ha] at h
      exact absurd h (show (0 : Int) ≠ EINVAL by decide)
    by_cases hst : (open_stat E s filename flags mode).1 = 0
    · rw [sys_open_append E s filename flags mode hc hm ho hfd hof hcr ha hst] at h
      exact absurd h (show (0 : Int) ≠ EINVAL by decide)
    · rw [sys_open_stat_fail E s filename flags mode hc hm ho hfd hof hcr ha hst] at h
      exact Or.inr (Or.inr h)

/-- C11, witness: in `blank` with `env_ok`, the flags 3 (both access bits set). -/
theorem open_einval_witness :
    (env_ok.copyinstr blank.trace 0).1 = 0 ∧ ¬ access_ok 3 ∧
      (sys_open env_ok blank 0 3 420).err = EINVAL ∧
      (sys_open env_ok blank 0 3 420).st.trace = [Call.copyinstr 0] :=
  have hc : (env_ok.copyinstr blank.trace 0).1 = 0 := by decide
  have hm : ¬ access_ok 3 := by decide
  have r := (open_einval env_ok blank 0 3 420 hc).2.1 hm
  ⟨hc, hm, r.1, r.2.2.2.2⟩

/-- C11, as stated, fails: with `env_device` in `blank`, the path copy-in
succeeds and the flags `O_WRONLY | O_APPEND = 33` carry the access mode
`O_WRONLY`, yet `sys_open` returns `EINVAL`, handed up from `vfs_open`. -/
theorem open_einval_from_vfs :
    (env_device.copyinstr blank.trace 0).1 = 0 ∧
      Int.land 33 O_ACCMODE = O_WRONLY ∧ access_ok 33 ∧
      (sys_open env_device blank 0 33 420).err = EINVAL := by
  decide

/-- A `sys_read` that gets past the descriptor and access-mode tests calls a
collaborator: its trace grows. -/
theorem sys_read_passed (E : Env) (s : Kernel) (fd buf buflen : Int) (h : check_fd s fd = 0)
    (hb : Int.land (s.heap (s.of_table (s.fd_table fd))).flags O_WRONLY = 0) :
    s.trace.length < (sys_read E s fd buf buflen).st.trace.length := by
  unfold sys_read
  dsimp only
  rw [if_neg (by simp [h]), if_neg (not_not.mpr hb)]
  split_ifs <;> simp [record_call]

/-- A `sys_write` that gets past the descriptor and access-mode tests calls a
collaborator: its trace grows. -/
theorem sys_write_passed (E : Env) (s : Kernel) (fd buf nbytes : Int) (h : check_fd s fd = 0)
    (hb : Int.land (s.heap (s.of_table (s.fd_table fd))).flags O_ACCMODE ≠ O_RDONLY) :
    s.trace.length < (sys_write E s fd buf nbytes).st.trace.length := by
  unfold sys_write
  dsimp only
  rw [if_neg (by simp [h]), if_neg hb]
  split_ifs <;> simp [record_call]

/-- A `sys_read` on a record whose flags have bit 0 set is rejected at once. -/
theorem sys_read_rejected (E : Env) (s : Kernel) (fd buf buflen : Int) (h : check_fd s fd = 0)
    (hb : Int.land (s.heap (s.of_table (s.fd_table fd))).flags O_WRONLY ≠ 0) :
    sys_read E s fd buf buflen = ⟨EBADF, none, s⟩ := by
  unfold sys_read
  dsimp only
  rw [if_neg (by simp [h]), if_pos hb]

/-- A `sys_write` on a record in mode `O_RDONLY` is rejected at once. -/
theorem sys_write_rejected (E : Env) (s : Kernel) (fd buf nbytes : Int)
    (h : check_fd s fd = 0)
    (hb : Int.land (s.heap (s.of_table (s.fd_table fd))).flags O_ACCMODE = O_RDONLY) :
    sys_write E s fd buf nbytes = ⟨EBADF, none, s⟩ := by
  unfold sys_write
  dsimp only
  rw [if_neg (by simp [h]), if_pos hb]

/-! ## C12: the access mode of the record gates `read` and `write` -/

/-- C12: for every `fd` that `check_fd` accepts and whose record has flags with
access mode `O_RDONLY`, `O_WRONLY` or `O_RDWR` (other bits arbitrary):
`sys_read` returns `EBADF` without having called any collaborator (so before any
vnode read) exactly when the mode is `O_WRONLY`, and `sys_write` returns `EBADF`
without having called any collaborator exactly when the mode is `O_RDONLY`; a
call rejected in this way leaves the whole state, so the record's offset and
both tables, as it was. -/
theorem access_mode_gates (E : Env) (s : Kernel) (fd buf len : Int) (h : check_fd s fd = 0)
    (hm : access_ok (s.heap (s.of_table (s.fd_table fd))).flags) :
    (((sys_read E s fd buf len).err = EBADF ∧ (sys_read E s fd buf len).st.trace = s.trace) ↔
        Int.land (s.heap (s.of_table (s.fd_table fd))).flags O_ACCMODE = O_WRONLY) ∧
      (Int.land (s.heap (s.of_table (s.fd_table fd))).flags O_ACCMODE = O_WRONLY →
        sys_read E s fd buf len = ⟨EBADF, none, s⟩) ∧
      (((sys_write E s fd buf len).err = EBADF ∧
          (sys_write E s fd buf len).st.trace = s.trace) ↔
        Int.land (s.heap (s.of_table (s.fd_table fd))).flags O_ACCMODE = O_RDONLY) ∧
      (Int.land (s.heap (s.of_table (s.fd_table fd))).flags O_ACCMODE = O_RDONLY →
        sys_write E s fd buf len = ⟨EBADF, none, s⟩) := by
  have hr : Int.land (s.heap (s.of_table (s.fd_table fd))).flags O_ACCMODE = O_WRONLY →
      sys_read E s fd buf len = ⟨EBADF, none, s⟩ := fun hw =>
    sys_read_rejected E s fd buf len h ((wronly_bit _ hm).mpr hw)
  have hw : Int.land (s.heap (s.of_table (s.fd_table fd))).flags O_ACCMODE = O_RDONLY →
      sys_write E s fd buf len = ⟨EBADF, none, s⟩ := fun hro =>
    sys_write_rejected E s fd buf len h hro
  refine ⟨⟨?_, fun hmode => by rw [hr hmode]; exact ⟨rfl, rfl⟩⟩, hr,
    ⟨?_, fun hmode => by rw [hw hmode]; exact ⟨rfl, rfl⟩⟩, hw⟩
  · rintro ⟨-, htr⟩
    by_contra hne
    have hb : Int.land (s.heap (s.of_table (s.fd_table fd))).flags O_WRONLY = 0 := by
      by_contra hb
      exact hne ((wronly_bit _ hm).mp hb)
    have := sys_read_passed E s fd buf len h hb
    rw [htr] at this
    exact lt_irrefl _ this
  · rintro ⟨-, htr⟩
    by_contra hne
    have := sys_write_passed E s fd buf len h hne
    rw [htr] at this
    exact lt_irrefl _ this

/-- C12, witness: descriptor 1 of `one_open`, opened `O_RDWR`: neither call is
rejected by the access-mode test. -/
theorem access_mode_gates_witness :
    check_fd one_open 1 = 0 ∧
      access_ok (one_open.heap (one_open.of_table (one_open.fd_table 1))).flags ∧
      ¬ ((sys_read env_ok one_open 1 0 8).err = EBADF ∧
        (sys_read env_ok one_open 1 0 8).st.trace = one_open.trace) ∧
      ¬ ((sys_write env_ok one_open 1 0 8).err = EBADF ∧
        (sys_write env_ok one_open 1 0 8).st.trace = one_open.trace) :=
  have h : check_fd one_open 1 = 0 := by decide
  have hm : access_ok (one_open.heap (one_open.of_table (one_open.fd_table 1))).flags := by
    decide
  have r := access_mode_gates env_ok one_open 1 0 8 h hm
  ⟨h, hm, fun c => absurd (r.1.mp c) (by decide), fun c => absurd (r.2.2.1.mp c) (by decide)⟩

/-- A byte count below `2^31` is stored through `rtn` as it is. -/
theorem to_int_small (n : Int) (h0 : 0 ≤ n) (h1 : n < 2 ^ 31) : to_int n = n := by
  unfold to_int
  omega

/-- The path of `sys_read` on which both blocks are allocated and `VOP_READ`
succeeds. -/
theorem sys_read_done (E : Env) (s : Kernel) (fd buf buflen : Int) (h : check_fd s fd = 0)
    (hb : Int.land (s.heap (s.of_table (s.fd_table fd))).flags O_WRONLY = 0)
    (k1 : E.kmalloc s.trace ≠ 0) (k2 : E.kmalloc (s.trace ++ [Call.kmalloc]) ≠ 0)
    (hu : (E.VOP_READ (s.trace ++ [Call.kmalloc] ++ [Call.kmalloc])
      (s.heap (s.of_table (s.fd_table fd))).vn buf
      (s.heap (s.of_table (s.fd_table fd))).offset buflen).err = 0) :
    (sys_read E s fd buf buflen).err = 0 ∧
      (sys_read E s fd buf buflen).rtn =
        some (to_int (buflen - (E.VOP_READ (s.trace ++ [Call.kmalloc] ++ [Call.kmalloc])
          (s.heap (s.of_table (s.fd_table fd))).vn buf
          (s.heap (s.of_table (s.fd_table fd))).offset buflen).uio_resid)) ∧
      (sys_read E s fd buf buflen).st.fd_table = s.fd_table ∧
      (sys_read E s fd buf buflen).st.of_table = s.of_table ∧
      (sys_read E s fd buf buflen).st.heap =
        poke s.heap (s.of_table (s.fd_table fd))
          { s.heap (s.of_table (s.fd_table fd)) with
            offset := (E.VOP_READ (s.trace ++ [Call.kmalloc] ++ [Call.kmalloc])
              (s.heap (s.of_table (s.fd_table fd))).vn buf
              (s.heap (s.of_table (s.fd_table fd))).offset buflen).uio_offset } := by
  unfold sys_read
  dsimp only
  simp only [record_call_trace, record_call_heap]
  rw [if_neg (by simp [h]), if_neg (not_not.mpr hb), if_neg k1, if_neg k2,
    if_neg (not_not.mpr hu)]
  exact ⟨rfl, rfl, rfl, rfl, rfl⟩

/-- The path of `sys_write` on which both blocks are allocated and `VOP_WRITE`
succeeds. -/
theorem sys_write_done (E : Env) (s : Kernel) (fd buf nbytes : Int) (h : check_fd s fd = 0)
    (hb : Int.land (s.heap (s.of_table (s.fd_table fd))).flags O_ACCMODE ≠ O_RDONLY)
    (k1 : E.kmalloc s.trace ≠ 0) (k2 : E.kmalloc (s.trace ++ [Call.kmalloc]) ≠ 0)
    (hu : (E.VOP_WRITE (s.trace ++ [Call.kmalloc] ++ [Call.kmalloc])
      (s.heap (s.of_table (s.fd_table fd))).vn buf
      (s.heap (s.of_table (s.fd_table fd))).offset nbytes).err = 0) :
    (sys_write E s fd buf nbytes).err = 0 ∧
      (sys_write E s fd buf nbytes).rtn =
        some (to_int (nbytes - (E.VOP_WRITE (s.trace ++ [Call.kmalloc] ++ [Call.kmalloc])
          (s.heap (s.of_table (s.fd_table fd))).vn buf
          (s.heap (s.of_table (s.fd_table fd))).offset nbytes).uio_resid)) ∧
      (sys_write E s fd buf nbytes).st.fd_table = s.fd_table ∧
      (sys_write E s fd buf nbytes).st.of_table = s.of_table ∧
      (sys_write E s fd buf nbytes).st.heap =
        poke s.heap (s.of_table (s.fd_table fd))
          { s.heap (s.of_table (s.fd_table fd)) with
            offset := (E.VOP_WRITE (s.trace ++ [Call.kmalloc] ++ [Call.kmalloc])
              (s.heap (s.of_table (s.fd_table fd))).vn buf
              (s.heap (s.of_table (s.fd_table fd))).offset nbytes).uio_offset } := by
  unfold sys_write
  dsimp only
  simp only [record_call_trace, record_call_heap]
  rw [if_neg (by simp [h]), if_neg hb, if_neg k1, if_neg k2, if_neg (not_not.mpr hu)]
  exact ⟨rfl, rfl, rfl, rfl, rfl⟩

/-! ## C13: `read` and `write` advance the offset by the bytes transferred -/

/-- C13, as amended: let `fd` be accepted by `check_fd`, let both `kmalloc`
calls of the syscall succeed, and let the vnode read (resp. write), made at the
record's current offset for `len` bytes, succeed having transferred `n` bytes (`uio_offset` is the old
offset plus `n`, `uio_resid` is `len - n`), with `0 ≤ n < 2^31`.  Then `sys_read` on a record that passes its
access-mode test (resp. `sys_write`) returns `0` with result `n`; afterwards the
record's offset is the old offset plus `n`, its other fields, every other record
and both tables are unchanged.  A short transfer, `n = 0` included, is such a
success. -/
theorem transfer_advances_offset (E : Env) (s : Kernel) (fd buf len n : Int)
    (h : check_fd s fd = 0)
    (k1 : E.kmalloc s.trace ≠ 0) (k2 : E.kmalloc (s.trace ++ [Call.kmalloc]) ≠ 0)
    (hn0 : 0 ≤ n) (hn31 : n < 2 ^ 31) :
    (Int.land (s.heap (s.of_table (s.fd_table fd))).flags O_WRONLY = 0 →
      E.VOP_READ (s.trace ++ [Call.kmalloc] ++ [Call.kmalloc])
          (s.heap (s.of_table (s.fd_table fd))).vn buf
          (s.heap (s.of_table (s.fd_table fd))).offset len =
        ⟨0, (s.heap (s.of_table (s.fd_table fd))).offset + n, len - n⟩ →
      (sys_read E s fd buf len).err = 0 ∧
        (sys_read E s fd buf len).rtn = some n ∧
        (sys_read E s fd buf len).st.fd_table = s.fd_table ∧
        (sys_read E s fd buf len).st.of_table = s.of_table ∧
        (sys_read E s fd buf len).st.heap =
          poke s.heap (s.of_table (s.fd_table fd))
            { s.heap (s.of_table (s.fd_table fd)) with
              offset := (s.heap (s.of_table (s.fd_table fd))).offset + n }) ∧
      (Int.land (s.heap (s.of_table (s.fd_table fd))).flags O_ACCMODE ≠ O_RDONLY →
        E.VOP_WRITE (s.trace ++ [Call.kmalloc] ++ [Call.kmalloc])
            (s.heap (s.of_table (s.fd_table fd))).vn buf
            (s.heap (s.of_table (s.fd_table fd))).offset len =
          ⟨0, (s.heap (s.of_table (s.fd_table fd))).offset + n, len - n⟩ →
        (sys_write E s fd buf len).err = 0 ∧
          (sys_write E s fd buf len).rtn = some n ∧
          (sys_write E s fd buf len).st.fd_table = s.fd_table ∧
          (sys_write E s fd buf len).st.of_table = s.of_table ∧
          (sys_write E s fd buf len).st.heap =
            poke s.heap (s.of_table (s.fd_table fd))
              { s.heap (s.of_table (s.fd_table fd)) with
                offset := (s.heap (s.of_table (s.fd_table fd))).offset + n }) := by
  have hcount : to_int (len - (len - n)) = n := by
    rw [show len - (len - n) = n by ring]
    exact to_int_small n hn0 hn31
  constructor
  · intro hb hu
    obtain ⟨r1, r2, r3, r4, r5⟩ := sys_read_done E s fd buf len h hb k1 k2 (by rw [hu])
    rw [hu] at r2 r5
    exact ⟨r1, by rw [r2, hcount], r3, r4, r5⟩
  · intro hb hu
    obtain ⟨r1, r2, r3, r4, r5⟩ := sys_write_done E s fd buf len h hb k1 k2 (by rw [hu])
    rw [hu] at r2 r5
    exact ⟨r1, by rw [r2, hcount], r3, r4, r5⟩

/-- C13, witness: with `env_short` on descriptor 1 of `one_open`, a `read` and a
`write` of 8 bytes transfer 3 bytes: result 3, offset from 0 to 3. -/
theorem transfer_advances_offset_witness :
    check_fd one_open 1 = 0 ∧
      (sys_read env_short one_open 1 0 8).err = 0 ∧
      (sys_read env_short one_open 1 0 8).rtn = some 3 ∧
      (sys_write env_short one_open 1 0 8).err = 0 ∧
      (sys_write env_short one_open 1 0 8).rtn = some 3 :=
  have h : check_fd one_open 1 = 0 := by decide
  have r := transfer_advances_offset env_short one_open 1 0 8 3 h (by decide) (by decide)
    (by decide) (by decide)
  have rd := r.1 (by decide) (by decide)
  have wr := r.2 (by decide) (by decide)
  ⟨h, rd.1, rd.2.1, wr.1, wr.2.1⟩

/-- C13, as stated, fails: with `env_ok` on descriptor 1 of `one_open`, opened
`O_RDWR`, a `read` of `len = 2^31` bytes at offset 0 succeeds having transferred
`n = len` bytes (`uio_offset = 0 + n`, `uio_resid = len - n`), and `sys_read`
returns `0`, but the result stored through `rtn` is `-2^31`, not `n`. -/
theorem transfer_count_wraps :
    check_fd one_open 1 = 0 ∧
      Int.land (one_open.heap (one_open.of_table (one_open.fd_table 1))).flags O_WRONLY = 0 ∧
      (one_open.heap (one_open.of_table (one_open.fd_table 1))).offset = 0 ∧
      env_ok.VOP_READ (one_open.trace ++ [Call.kmalloc] ++ [Call.kmalloc])
          (one_open.heap (one_open.of_table (one_open.fd_table 1))).vn 0 0 2147483648 =
        ⟨0, 0 + 2147483648, 2147483648 - 2147483648⟩ ∧
      (sys_read env_ok one_open 1 0 2147483648).err = 0 ∧
      (sys_read env_ok one_open 1 0 2147483648).rtn = some (-2147483648) ∧
      (sys_read env_ok one_open 1 0 2147483648).rtn ≠ some 2147483648 := by
  decide

/-- An `off_t` value is left alone by the 64-bit wrap. -/
theorem to_off_t_small (x : Int) (h0 : -(2 ^ 63) ≤ x) (h1 : x < 2 ^ 63) : to_off_t x = x := by
  unfold to_off_t
  omega

/-- A sum of two `off_t` values that exceeds `2^63 - 1` wraps to a negative
value. -/
theorem to_off_t_wrap (x : Int) (h0 : 2 ^ 63 ≤ x) (h1 : x < 2 ^ 64) : to_off_t x < 0 := by
  unfold to_off_t
  omega

/-- The path of `sys_lseek` on which the object is seekable and `VOP_STAT`
succeeds; `c` is the candidate offset as the code computes it. -/
theorem sys_lseek_main (E : Env) (s : Kernel) (fd pos whence size : Int)
    (hw : whence = SEEK_SET ∨ whence = SEEK_CUR ∨ whence = SEEK_END)
    (h : check_fd s fd = 0)
    (hseek : E.VOP_ISSEEKABLE s.trace (s.heap (s.of_table (s.fd_table fd))).vn = true)
    (hstat : E.VOP_STAT
      (s.trace ++ [Call.VOP_ISSEEKABLE (s.heap (s.of_table (s.fd_table fd))).vn])
      (s.heap (s.of_table (s.fd_table fd))).vn = (0, size)) (c : Int)
    (hc : c = if whence = SEEK_END then to_off_t (size + pos)
      else if whence = SEEK_SET then pos
      else to_off_t (pos + (s.heap (s.of_table (s.fd_table fd))).offset)) :
    (c > size ∨ c < 0 →
        (sys_lseek E s fd pos whence).err = EINVAL ∧
        (sys_lseek E s fd pos whence).rtn = none ∧
        (sys_lseek E s fd pos whence).st.heap = s.heap) ∧
      (¬ (c > size ∨ c < 0) →
        (sys_lseek E s fd pos whence).err = 0 ∧
        (sys_lseek E s fd pos whence).rtn = some c ∧
        (sys_lseek E s fd pos whence).st.heap =
          poke s.heap (s.of_table (s.fd_table fd))
            { s.heap (s.of_table (s.fd_table fd)) with offset := c }) := by
  subst hc
  unfold sys_lseek
  dsimp only [record_call_trace, record_call_heap]
  rw [if_neg (not_not.mpr hw), if_neg (not_not.mpr h), if_neg (not_not.mpr hseek), hstat]
  dsimp only
  rw [if_neg (not_not.mpr rfl)]
  constructor
  · intro hbad
    rw [if_pos hbad]
    exact ⟨rfl, rfl, rfl⟩
  · intro hgood
    rw [if_neg hgood]
    exact ⟨rfl, rfl, rfl⟩

/-! ## C14: the candidate offset of `sys_lseek` -/

/-- C14: let `fd` be accepted by `check_fd`, on a seekable object whose
`VOP_STAT` succeeds with size `S`, `0 ≤ S < 2^63`, let the record's offset `o`
satisfy `0 ≤ o < 2^63`, let `pos` be a 64-bit signed value and `whence` one of
`SEEK_SET`, `SEEK_CUR`, `SEEK_END`, and let `c` be `pos`, `pos + o` or `S + pos`
respectively, as a mathematical integer.  If `0 ≤ c ≤ S`, `sys_lseek` returns
`0`, yields `c` and sets the record's offset to `c`; otherwise it returns
`EINVAL` and leaves every record, so the offset, unchanged.  The additions of
the code are taken modulo `2^64`.  With `SEEK_END` and `pos = 0` the call yields
`S`. -/
theorem lseek_candidate (E : Env) (s : Kernel) (fd pos whence S : Int)
    (hw : whence = SEEK_SET ∨ whence = SEEK_CUR ∨ whence = SEEK_END)
    (h : check_fd s fd = 0)
    (hseek : E.VOP_ISSEEKABLE s.trace (s.heap (s.of_table (s.fd_table fd))).vn = true)
    (hstat : E.VOP_STAT
      (s.trace ++ [Call.VOP_ISSEEKABLE (s.heap (s.of_table (s.fd_table fd))).vn])
      (s.heap (s.of_table (s.fd_table fd))).vn = (0, S))
    (hS0 : 0 ≤ S) (hS1 : S < 2 ^ 63)
    (ho0 : 0 ≤ (s.heap (s.of_table (s.fd_table fd))).offset)
    (ho1 : (s.heap (s.of_table (s.fd_table fd))).offset < 2 ^ 63)
    (hp0 : -(2 ^ 63) ≤ pos) (hp1 : pos < 2 ^ 63) (c : Int)
    (hc : c = if whence = SEEK_END then S + pos
      else if whence = SEEK_SET then pos
      else pos + (s.heap (s.of_table (s.fd_table fd))).offset) :
    (0 ≤ c ∧ c ≤ S →
        (sys_lseek E s fd pos whence).err = 0 ∧
        (sys_lseek E s fd pos whence).rtn = some c ∧
        (sys_lseek E s fd pos whence).st.heap =
          poke s.heap (s.of_table (s.fd_table fd))
            { s.heap (s.of_table (s.fd_table fd)) with offset := c }) ∧
      (¬ (0 ≤ c ∧ c ≤ S) →
        (sys_lseek E s fd pos whence).err = EINVAL ∧
        (sys_lseek E s fd pos whence).st.heap = s.heap) ∧
      (whence = SEEK_END → pos = 0 → (sys_lseek E s fd pos whence).rtn = some S) := by
  obtain ⟨bad, good⟩ := sys_lseek_main E s fd pos whence S hw h hseek hstat _ rfl
  -- the candidate of the code agrees with `c`, or `c` is too large and it is negative
  have key : (0 ≤ c ∧ c ≤ S →
      (if whence = SEEK_END then to_off_t (S + pos)
        else if whence = SEEK_SET then pos
        else to_off_t (pos + (s.heap (s.of_table (s.fd_table fd))).offset)) = c) ∧
      (¬ (0 ≤ c ∧ c ≤ S) →
        (if whence = SEEK_END then to_off_t (S + pos)
          else if whence = SEEK_SET then pos
          else to_off_t (pos + (s.heap (s.of_table (s.fd_table fd))).offset)) > S ∨
        (if whence = SEEK_END then to_off_t (S + pos)
          else if whence = SEEK_SET then pos
          else to_off_t (pos + (s.heap (s.of_table (s.fd_table fd))).offset)) < 0) := by
    subst hc
    split_ifs with e1 e2
    · constructor
      · intro hr
        exact to_off_t_small _ (by omega) (by omega)
      · intro hr
        by_cases big : 2 ^ 63 ≤ S + pos
        · exact Or.inr (to_off_t_wrap _ big (by omega))
        · rw [to_off_t_small _ (by omega) (by omega)]
          omega
    · constructor
      · intro _; rfl
      · intro hr; omega
    · constructor
      · intro hr
        exact to_off_t_small _ (by omega) (by omega)
      · intro hr
        by_cases big : 2 ^ 63 ≤ pos + (s.heap (s.of_table (s.fd_table fd))).offset
        · exact Or.inr (to_off_t_wrap _ big (by omega))
        · rw [to_off_t_small _ (by omega) (by omega)]
          omega
  have hgood : 0 ≤ c ∧ c ≤ S →
      (sys_lseek E s fd pos whence).err = 0 ∧
      (sys_lseek E s fd pos whence).rtn = some c ∧
      (sys_lseek E s fd pos whence).st.heap =
        poke s.heap (s.of_table (s.fd_table fd))
          { s.heap (s.of_table (s.fd_table fd)) with offset := c } := by
    intro hr
    have e := key.1 hr
    have g := good (by rw [e]; omega)
    rw [e] at g
    exact g
  refine ⟨hgood, ?_, ?_⟩
  · intro hr
    have b := bad (key.2 hr)
    exact ⟨b.1, b.2.2⟩
  · intro he hp
    have hcS : c = S := by rw [hc, if_pos he, hp, add_zero]
    have g := hgood (by rw [hcS]; exact ⟨hS0, le_refl _⟩)
    rw [hcS] at g
    exact g.2.1

/-- C14, witness: descriptor 1 of `one_open` with `env_ok` (seekable, size 100,
offset 0): `SEEK_END` with `pos = 0` yields 100. -/
theorem lseek_candidate_witness :
    check_fd one_open 1 = 0 ∧
      (sys_lseek env_ok one_open 1 0 SEEK_END).err = 0 ∧
      (sys_lseek env_ok one_open 1 0 SEEK_END).rtn = some 100 :=
  have h : check_fd one_open 1 = 0 := by decide
  have r := lseek_candidate env_ok one_open 1 0 SEEK_END 100 (by decide) h (by decide)
    (by decide) (by decide) (by decide) (by decide) (by decide) (by decide) (by decide)
    100 (by decide)
  ⟨h, (r.1 (by decide)).1, r.2.2 rfl rfl⟩

/-- The scan gives an index above the one it is entered at, and at most one
past its last pass. -/
theorem scan_loop_range (is_empty : Int → Bool) :
    ∀ (n : Nat) (i : Int), i < scan_loop is_empty n i ∧ scan_loop is_empty n i ≤ i + n + 1 := by
  intro n
  induction n with
  | zero => intro i; simp [scan_loop]
  | succ m ih =>
    intro i
    rw [scan_loop]
    split_ifs
    · constructor
      · omega
      · push_cast; omega
    · have := ih (i + 1)
      constructor
      · omega
      · push_cast; omega

/-- The scan `get_fd` never gives index 0. -/
theorem get_fd_pos (s : Kernel) : 1 ≤ get_fd s := by
  unfold get_fd
  have := (scan_loop_range (fun i => decide (s.fd_table i = FD_EMPTY)) FD_MAX.toNat 0).1
  omega

/-! ## C15: the scan `get_fd` -/

set_option maxRecDepth 100000 in
/-- C15, in `blank` and in `crowded`: with every descriptor empty, entry 0
included, `get_fd` gives 1 and not 0; with every entry in `[0, FD_MAX)`
occupied it gives 129 and not `FD_MAX`; and on the same occupied table it gives
128 once the word at index 128, outside the table, holds `FD_EMPTY`, so that
word is read. -/
theorem get_fd_skips_and_overruns :
    blank.fd_table 0 = FD_EMPTY ∧ get_fd blank = 1 ∧
      (∀ i, 0 ≤ i → i < FD_MAX → crowded.fd_table i ≠ FD_EMPTY) ∧
      get_fd crowded = 129 ∧ (129 : Int) ≠ FD_MAX ∧
      (∀ i, 0 ≤ i → i < FD_MAX →
        store crowded.fd_table 128 FD_EMPTY i = crowded.fd_table i) ∧
      get_fd { crowded with fd_table := store crowded.fd_table 128 FD_EMPTY } = 128 := by
  refine ⟨by decide, by decide, ?_, by decide, by decide, ?_, by decide⟩
  · intro i h0 h1
    have h2 : i < 128 := h1
    simp [crowded, h0, h2, FD_EMPTY]
  · intro i _ h1
    have h2 : i < 128 := h1
    exact store_other _ _ _ _ (by omega)

/-! ## C16: `check_fd` -/

/-- C16: for every integer `fd` and every state, `check_fd` returns `0` exactly
when `0 ≤ fd < FD_MAX`, the entry of `fd` is not `FD_EMPTY`, that entry is in
`[0, OPEN_MAX)` and the slot it names is not `OF_EMPTY`; in every other case it
returns `EBADF`.  Its verdict depends on the descriptor-table cells in
`[0, FD_MAX)` and the open-file-table cells in `[0, OPEN_MAX)` only, so it reads
neither table out of range; being a function from the state to the verdict, it
modifies nothing. -/
theorem check_fd_spec (s : Kernel) (fd : Int) :
    (check_fd s fd = 0 ↔
        0 ≤ fd ∧ fd < FD_MAX ∧ s.fd_table fd ≠ FD_EMPTY ∧ 0 ≤ s.fd_table fd ∧
          s.fd_table fd < OPEN_MAX ∧ s.of_table (s.fd_table fd) ≠ OF_EMPTY) ∧
      (check_fd s fd ≠ 0 → check_fd s fd = EBADF) ∧
      (∀ t : Kernel, (∀ i, 0 ≤ i → i < FD_MAX → t.fd_table i = s.fd_table i) →
        (∀ j, 0 ≤ j → j < OPEN_MAX → t.of_table j = s.of_table j) →
        check_fd t fd = check_fd s fd) := by
  refine ⟨?_, ?_, ?_⟩
  · rw [check_fd_zero_iff]
    constructor
    · rintro ⟨a, b, c, d, e⟩
      exact ⟨a, b, by rw [FD_EMPTY]; omega, c, d, e⟩
    · rintro ⟨a, b, -, c, d, e⟩
      exact ⟨a, b, c, d, e⟩
  · intro hne
    rcases check_fd_cases s fd with h | h
    · exact absurd h hne
    · exact h
  · intro t hfd hof
    have agree : check_fd t fd = 0 ↔ check_fd s fd = 0 := by
      rw [check_fd_zero_iff, check_fd_zero_iff]
      constructor
      · rintro ⟨a, b, c, d, e⟩
        rw [hfd fd a b] at c d e
        rw [hof _ c d] at e
        exact ⟨a, b, c, d, e⟩
      · rintro ⟨a, b, c, d, e⟩
        rw [← hfd fd a b] at c d e
        rw [← hof _ (by rw [hfd fd a b]; rw [hfd fd a b] at c; exact c)
          (by rw [hfd fd a b]; rw [hfd fd a b] at d; exact d)] at e
        exact ⟨a, b, c, d, e⟩
    rcases check_fd_cases s fd with h | h
    · rw [h, agree.mpr h]
    · rcases check_fd_cases t fd with h' | h'
      · rw [agree.mp h'] at h
        exact absurd h.symm EBADF_ne_zero
      · rw [h, h']

/-- C16, witness: `one_open`, and `one_open` with the word after each table
overwritten: the verdicts on descriptor 1 agree and are `0`. -/
theorem check_fd_spec_witness :
    check_fd one_open 1 = 0 ∧
      check_fd { one_open with fd_table := store one_open.fd_table 128 5,
                               of_table := store one_open.of_table 128 9 } 1 = 0 :=
  have a := (check_fd_spec one_open 1).2.2
    { one_open with fd_table := store one_open.fd_table 128 5,
                    of_table := store one_open.of_table 128 9 }
    (fun i _ h1 => store_other _ _ _ _ (by have : i < 128 := h1; omega))
    (fun j _ h1 => store_other _ _ _ _ (by have : j < 128 := h1; omega))
  have b : check_fd one_open 1 = 0 := by decide
  ⟨b, a.trans b⟩

/-! ## C17: `create_of` when the open fails -/

/-- When `kmalloc` succeeds and the `vfs_open` of `create_of` fails, `create_of`
returns the error of `vfs_open` and leaves the slot pointing to the block, which
is neither freed nor filled in. -/
theorem create_of_open_fails (E : Env) (s : Kernel) (filename : String)
    (flags mode slot : Int) (hk : E.kmalloc s.trace ≠ 0)
    (ho : (E.vfs_open (s.trace ++ [Call.kmalloc]) filename flags mode).1 ≠ 0) :
    (create_of E s filename flags mode slot).1 =
        (E.vfs_open (s.trace ++ [Call.kmalloc]) filename flags mode).1 ∧
      (create_of E s filename flags mode slot).2.of_table slot = E.kmalloc s.trace ∧
      (create_of E s filename flags mode slot).2.of_table slot ≠ OF_EMPTY ∧
      (create_of E s filename flags mode slot).2.heap = s.heap ∧
      (create_of E s filename flags mode slot).2.trace =
        s.trace ++ [Call.kmalloc] ++ [Call.vfs_open filename flags mode] := by
  unfold create_of
  dsimp only [record_call_trace]
  rw [if_neg hk, if_pos ho]
  have hs : store s.of_table slot (E.kmalloc s.trace) slot = E.kmalloc s.trace :=
    store_same _ _ _
  exact ⟨rfl, hs, fun e => hk (hs.symm.trans e), rfl, rfl⟩

/-- C17, with `env_open_fails`: slot 1 is free, `kmalloc` gives the block 1000
and `vfs_open` fails with 19; `create_of` on slot 1 returns 19 and leaves
slot 1 holding 1000, not `OF_EMPTY`; the block is not freed (the trace has no
`kfree`); and a descriptor whose entry is 1, rejected by `check_fd` before the
call, is accepted after it. -/
theorem create_of_leaves_slot_live :
    blank.of_table 1 = OF_EMPTY ∧
      (create_of env_open_fails blank "a.txt" O_RDONLY 420 1).1 = 19 ∧
      (create_of env_open_fails blank "a.txt" O_RDONLY 420 1).2.of_table 1 = 1000 ∧
      (create_of env_open_fails blank "a.txt" O_RDONLY 420 1).2.of_table 1 ≠ OF_EMPTY ∧
      (create_of env_open_fails blank "a.txt" O_RDONLY 420 1).2.trace =
        [Call.kmalloc, Call.vfs_open "a.txt" O_RDONLY 420] ∧
      check_fd { blank with fd_table := store blank.fd_table 3 1 } 3 = EBADF ∧
      check_fd { (create_of env_open_fails blank "a.txt" O_RDONLY 420 1).2 with
        fd_table := store blank.fd_table 3 1 } 3 = 0 := by
  decide

/-- A successful `init_filesystem`: the table was allocated, both `create_of`
calls succeeded, and the final state is the one left by the second. -/
theorem init_filesystem_ok (E : Env) (s : Kernel) (h : (init_filesystem E s).1 = 0) :
    E.kmalloc s.trace ≠ 0 ∧ (init_r1 E s).1 = 0 ∧ (init_r2 E s).1 = 0 ∧
      (init_filesystem E s).2 = (init_r2 E s).2 := by
  unfold init_filesystem at h ⊢
  dsimp only at h ⊢
  split_ifs at h ⊢ with h1 h2 h3
  · exact absurd h (show ENOMEM ≠ 0 by decide)
  · exact absurd h h2
  · exact absurd h h3
  · exact ⟨h1, not_not.mp h2, not_not.mp h3, rfl⟩

/-! ## C18: the console records set up by `init_filesystem` -/

/-- C18: after a successful `init_filesystem`, in which `kmalloc` gave two
different blocks for the two records, the slots of `[0, OPEN_MAX)` that are not
`OF_EMPTY` are exactly slots 1 and 2; the record of slot 1 holds the vnode
returned by `vfs_open` on `"con:"` with `O_WRONLY`, has `offset = 0` and flags
`O_WRONLY`; the record of slot 2 holds the vnode returned by `vfs_open` on
`"con:"` with `O_RDONLY`, has `offset = 0` and flags `O_RDONLY`; and the calls
made are the three `kmalloc` and these two `vfs_open`. -/
theorem init_filesystem_console (E : Env) (s : Kernel)
    (h : (init_filesystem E s).1 = 0)
    (hd : E.kmalloc (s.trace ++ [Call.kmalloc]) ≠
      E.kmalloc (s.trace ++ [Call.kmalloc] ++ [Call.kmalloc] ++
        [Call.vfs_open "con:" O_WRONLY 436])) :
    (∀ i, 0 ≤ i → i < OPEN_MAX →
        ((init_filesystem E s).2.of_table i ≠ OF_EMPTY ↔ i = 1 ∨ i = 2)) ∧
      (init_filesystem E s).2.heap ((init_filesystem E s).2.of_table 1) =
        { vn := (E.vfs_open (s.trace ++ [Call.kmalloc] ++ [Call.kmalloc]) "con:"
            O_WRONLY 436).2,
          ref_count := 0, offset := 0, mode := 436, flags := O_WRONLY } ∧
      (init_filesystem E s).2.heap ((init_filesystem E s).2.of_table 2) =
        { vn := (E.vfs_open (s.trace ++ [Call.kmalloc] ++ [Call.kmalloc] ++
            [Call.vfs_open "con:" O_WRONLY 436] ++ [Call.kmalloc]) "con:" O_RDONLY 436).2,
          ref_count := 0, offset := 0, mode := 436, flags := O_RDONLY } ∧
      (init_filesystem E s).2.trace =
        s.trace ++ [Call.kmalloc] ++ [Call.kmalloc] ++ [Call.vfs_open "con:" O_WRONLY 436] ++
          [Call.kmalloc] ++ [Call.vfs_open "con:" O_RDONLY 436] := by
  obtain ⟨-, h1, h2, hfin⟩ := init_filesystem_ok E s h
  obtain ⟨k1, -, t1, m1, tr1⟩ := create_of_ok E (init_s1 s) "con:" O_WRONLY 436 1 h1
  obtain ⟨k2, -, t2, m2, tr2⟩ := create_of_ok E (init_r1 E s).2 "con:" O_RDONLY 436 2 h2
  have e1 : (init_r1 E s).2.trace =
      s.trace ++ [Call.kmalloc] ++ [Call.kmalloc] ++ [Call.vfs_open "con:" O_WRONLY 436] := tr1
  rw [e1] at k2 t2 m2 tr2
  have et : (init_r2 E s).2.of_table =
      store (store (init_s1 s).of_table 1 (E.kmalloc (s.trace ++ [Call.kmalloc]))) 2
        (E.kmalloc (s.trace ++ [Call.kmalloc] ++ [Call.kmalloc] ++
          [Call.vfs_open "con:" O_WRONLY 436])) := by
    rw [t2, t1]
    rfl
  have eh : (init_r2 E s).2.heap =
      poke (poke s.heap (E.kmalloc (s.trace ++ [Call.kmalloc]))
          { vn := (E.vfs_open (s.trace ++ [Call.kmalloc] ++ [Call.kmalloc]) "con:"
              O_WRONLY 436).2,
            ref_count := 0, offset := 0, mode := 436, flags := O_WRONLY })
        (E.kmalloc (s.trace ++ [Call.kmalloc] ++ [Call.kmalloc] ++
          [Call.vfs_open "con:" O_WRONLY 436]))
        { vn := (E.vfs_open (s.trace ++ [Call.kmalloc] ++ [Call.kmalloc] ++
            [Call.vfs_open "con:" O_WRONLY 436] ++ [Call.kmalloc]) "con:" O_RDONLY 436).2,
          ref_count := 0, offset := 0, mode := 436, flags := O_RDONLY } := by
    rw [m2, m1]
    rfl
  rw [hfin, et, eh]
  refine ⟨?_, ?_, ?_, tr2⟩
  · intro i h0 hi
    by_cases e2 : i = 2
    · subst e2
      rw [store_same]
      exact ⟨fun _ => Or.inr rfl, fun _ => k2⟩
    · rw [store_other _ _ _ _ e2]
      by_cases e1' : i = 1
      · subst e1'
        rw [store_same]
        exact ⟨fun _ => Or.inl rfl, fun _ => k1⟩
      · rw [store_other _ _ _ _ e1']
        have : (init_s1 s).of_table i = OF_EMPTY := if_pos ⟨h0, hi⟩
        rw [this]
        exact ⟨fun c => absurd rfl c, fun c => by rcases c with c | c <;> contradiction⟩
  · rw [store_other _ _ _ _ (by decide), store_same, poke_other _ _ _ _ hd, poke_same]
  · rw [store_same, poke_same]

/-- C18, witness: `init_filesystem` with `env_ok` on `blank`. -/
theorem init_filesystem_console_witness :
    (init_filesystem env_ok blank).1 = 0 ∧
      (init_filesystem env_ok blank).2.of_table 1 ≠ OF_EMPTY ∧
      (init_filesystem env_ok blank).2.of_table 2 ≠ OF_EMPTY ∧
      (init_filesystem env_ok blank).2.of_table 0 = OF_EMPTY ∧
      ((init_filesystem env_ok blank).2.heap
        ((init_filesystem env_ok blank).2.of_table 1)).flags = O_WRONLY :=
  have h : (init_filesystem env_ok blank).1 = 0 := by decide
  have r := init_filesystem_console env_ok blank h (by decide)
  ⟨h, (r.1 1 (by decide) (by decide)).mpr (Or.inl rfl),
    (r.1 2 (by decide) (by decide)).mpr (Or.inr rfl),
    by
      have := (r.1 0 (by decide) (by decide)).not.mpr (by decide)
      exact not_not.mp this,
    by rw [r.2.1]⟩

/-! ## The open-file table under the syscalls -/

/-- The function `sys_read` never writes to the open-file table. -/
theorem sys_read_of_table (E : Env) (s : Kernel) (fd buf buflen : Int) :
    (sys_read E s fd buf buflen).st.of_table = s.of_table := by
  unfold sys_read
  dsimp only
  split_ifs <;> rfl

/-- The function `sys_write` never writes to the open-file table. -/
theorem sys_write_of_table (E : Env) (s : Kernel) (fd buf nbytes : Int) :
    (sys_write E s fd buf nbytes).st.of_table = s.of_table := by
  unfold sys_write
  dsimp only
  split_ifs <;> rfl

/-- The function `sys_lseek` never writes to the open-file table. -/
theorem sys_lseek_of_table (E : Env) (s : Kernel) (fd pos whence : Int) :
    (sys_lseek E s fd pos whence).st.of_table = s.of_table := by
  unfold sys_lseek
  dsimp only
  split_ifs <;> rfl

/-- The function `sys_dup2` never writes to the open-file table. -/
theorem sys_dup2_of_table (s : Kernel) (oldfd newfd : Int) :
    (sys_dup2 s oldfd newfd).st.of_table = s.of_table := by
  unfold sys_dup2
  dsimp only
  split_ifs
  · rfl
  · rfl
  · rfl
  · exact sys_close_of_table s newfd
  · exact sys_close_of_table s newfd
  · rfl
  · rfl

/-- The verdict of `check_fd` on `g` depends on the entry of `g` and on the
open-file table only. -/
theorem check_fd_congr_at (s t : Kernel) (g : Int) (h1 : t.fd_table g = s.fd_table g)
    (h2 : t.of_table = s.of_table) : check_fd t g = check_fd s g := by
  unfold check_fd
  rw [h1, h2]

/-- A result of the scan that lies within its passes is an empty cell. -/
theorem scan_loop_hit (is_empty : Int → Bool) :
    ∀ (n : Nat) (i : Int), scan_loop is_empty n i ≤ i + n →
      is_empty (scan_loop is_empty n i) = true := by
  intro n
  induction n with
  | zero => intro i h; simp [scan_loop] at h
  | succ m ih =>
    intro i h
    rw [scan_loop] at h ⊢
    split_ifs at h ⊢ with e
    · exact e
    · exact ih (i + 1) (by push_cast at h; omega)

/-- A slot index in `[0, OPEN_MAX)` given by `get_of` names a free slot. -/
theorem get_of_free (s : Kernel) (h : get_of s < OPEN_MAX) :
    s.of_table (get_of s) = OF_EMPTY := by
  have := scan_loop_hit (fun i => decide (s.of_table i = OF_EMPTY)) OPEN_MAX.toNat 0
    (by
      have h' : scan_loop (fun i => decide (s.of_table i = OF_EMPTY)) OPEN_MAX.toNat 0
          < OPEN_MAX := h
      have : ((OPEN_MAX.toNat : Nat) : Int) = 128 := by decide
      rw [this]
      have : OPEN_MAX = 128 := rfl
      omega)
  simpa using this

/-- The only write of `create_of` to the open-file table is the store of the
block address in the slot. -/
theorem create_of_of_table (E : Env) (s : Kernel) (filename : String)
    (flags mode slot : Int) :
    (create_of E s filename flags mode slot).2.of_table =
      store s.of_table slot (E.kmalloc s.trace) := by
  unfold create_of
  dsimp only
  split_ifs <;> rfl

/-- The function `sys_open` writes to the open-file table at the index given by
`get_of` at most. -/
theorem sys_open_of_table (E : Env) (s : Kernel) (filename flags mode : Int) :
    (sys_open E s filename flags mode).st.of_table = s.of_table ∨
      (sys_open E s filename flags mode).st.of_table =
        store s.of_table (get_of s) (E.kmalloc (open_s1 E s filename flags mode).trace) := by
  have hcr : (open_cr E s filename flags mode).2.of_table =
      store s.of_table (get_of s) (E.kmalloc (open_s1 E s filename flags mode).trace) :=
    create_of_of_table E (open_s1 E s filename flags mode) _ flags mode (get_of s)
  by_cases hc : (E.copyinstr s.trace filename).1 = 0
  swap
  · rw [sys_open_copy_fail E s filename flags mode hc]
    exact Or.inl rfl
  by_cases hm : access_ok flags
  swap
  · rw [sys_open_einval E s filename flags mode hc hm]
    exact Or.inl rfl
  by_cases ho : (E.vfs_open (open_s0 s filename).trace (E.copyinstr s.trace filename).2
      flags mode).1 = 0
  swap
  · rw [sys_open_vfs_fail E s filename flags mode hc hm ho]
    exact Or.inl rfl
  by_cases hfd : get_fd s = FD_MAX
  · rw [sys_open_emfile E s filename flags mode hc hm ho hfd]
    exact Or.inl rfl
  by_cases hof : get_of s = OPEN_MAX
  · rw [sys_open_enfile E s filename flags mode hc hm ho hfd hof]
    exact Or.inl rfl
  by_cases hcr0 : (open_cr E s filename flags mode).1 = 0
  swap
  · rw [sys_open_create_fail E s filename flags mode hc hm ho hfd hof hcr0]
    exact Or.inr hcr
  by_cases ha : Int.land flags O_APPEND = 0
  · rw [sys_open_plain E s filename flags mode hc hm ho hfd hof hcr0 ha]
    exact Or.inr hcr
  by_cases hst : (open_stat E s filename flags mode).1 = 0
  · rw [sys_open_append E s filename flags mode hc hm ho hfd hof hcr0 ha hst]
    exact Or.inr hcr
  · rw [sys_open_stat_fail E s filename flags mode hc hm ho hfd hof hcr0 ha hst]
    exact Or.inr hcr

/-! ## C19: no syscall frees a slot -/

/-- C19: `sys_close`, `sys_dup2`, `sys_read`, `sys_write` and `sys_lseek` leave
the open-file table as it was, whatever their arguments, so the slots that are
not `OF_EMPTY` are the same after the call as before, also when `sys_close`
brings the count to 0 and releases the record; a descriptor `g` other than the
one closed that passed `check_fd` before a `sys_close` passes it afterwards; and
a `sys_open` leaves every slot of `[0, OPEN_MAX)` that is not `OF_EMPTY` as it
was, so such a slot is never given to a new record. -/
theorem slots_never_freed (E : Env) (s : Kernel) :
    (∀ op : Op, (op.run E s).st.of_table = s.of_table) ∧
      (∀ fd g : Int, g ≠ fd → check_fd s g = 0 → check_fd (sys_close s fd).st g = 0) ∧
      (∀ filename flags mode i : Int, 0 ≤ i → i < OPEN_MAX → s.of_table i ≠ OF_EMPTY →
        (sys_open E s filename flags mode).st.of_table i = s.of_table i) := by
  refine ⟨?_, ?_, ?_⟩
  · intro op
    cases op with
    | close fd => exact sys_close_of_table s fd
    | read fd buf buflen => exact sys_read_of_table E s fd buf buflen
    | write fd buf nbytes => exact sys_write_of_table E s fd buf nbytes
    | lseek fd pos whence => exact sys_lseek_of_table E s fd pos whence
    | dup2 oldfd newfd => exact sys_dup2_of_table s oldfd newfd
  · intro fd g hg hv
    rw [← hv]
    apply check_fd_congr_at _ _ _ _ (sys_close_of_table s fd)
    by_cases hf : check_fd s fd = 0
    · rw [sys_close_fd_table s fd hf, store_other _ _ _ _ hg]
    · rw [sys_close_bad s fd hf]
  · intro filename flags mode i h0 h1 hlive
    rcases sys_open_of_table E s filename flags mode with e | e
    · rw [e]
    · rw [e]
      apply store_other
      intro hi
      apply hlive
      rw [hi]
      exact get_of_free s (by rw [← hi]; exact h1)

/-- C19, witness: in `one_open_dup`, the `sys_close` of descriptor 1 releases the
record (one `vfs_close` of its vnode 4), slot 1 still holds the block, and
descriptor 5 still passes `check_fd`. -/
theorem slots_never_freed_witness :
    check_fd one_open_dup 5 = 0 ∧
      releases (sys_close one_open_dup 1).st.trace 4 = releases one_open_dup.trace 4 + 1 ∧
      (sys_close one_open_dup 1).st.of_table = one_open_dup.of_table ∧
      check_fd (sys_close one_open_dup 1).st 5 = 0 :=
  have h : check_fd one_open_dup 5 = 0 := by decide
  have r := slots_never_freed env_ok one_open_dup
  ⟨h, by decide, r.1 (Op.close 1), r.2.1 1 5 (by decide) h⟩

/-! ## Which vnodes the syscalls release -/

/-- A call other than `vfs_close v` does not change the number of releases of
`v`. -/
theorem releases_snoc (tr : List Call) (c : Call) (v : Nat) (h : c ≠ Call.vfs_close v) :
    releases (tr ++ [c]) v = releases tr v := by
  unfold releases
  rw [List.count_append, List.count_singleton]
  simp [h]

/-- A write to a record that keeps its `vn` keeps the `vn` of every record. -/
theorem poke_vn (hp : Nat → open_file) (p q : Nat) (r : open_file) (h : r.vn = (hp p).vn) :
    (poke hp p r q).vn = (hp q).vn := by
  by_cases e : q = p
  · rw [e, poke_same, h]
  · rw [poke_other _ _ _ _ e]

/-- The function `sys_close` changes no `vn` field and releases only a vnode
that a record holds. -/
theorem sys_close_vnodes (s : Kernel) (fd : Int) (v : Nat) :
    (∀ q, ((sys_close s fd).st.heap q).vn = (s.heap q).vn) ∧
      (¬ holds_vnode s v → releases (sys_close s fd).st.trace v = releases s.trace v) := by
  unfold sys_close
  dsimp only
  split_ifs with h1 h2
  · exact ⟨fun _ => rfl, fun _ => rfl⟩
  · refine ⟨fun q => poke_vn _ _ _ _ rfl, fun hv => ?_⟩
    dsimp only [record_call_trace]
    rw [releases_snoc _ _ _ (by simp), releases_snoc]
    intro e
    injection e with e
    exact hv ⟨_, e⟩
  · exact ⟨fun q => poke_vn _ _ _ _ rfl, fun _ => rfl⟩

/-- The function `sys_read` changes no `vn` field and releases nothing. -/
theorem sys_read_vnodes (E : Env) (s : Kernel) (fd buf buflen : Int) (v : Nat) :
    (∀ q, ((sys_read E s fd buf buflen).st.heap q).vn = (s.heap q).vn) ∧
      releases (sys_read E s fd buf buflen).st.trace v = releases s.trace v := by
  unfold sys_read
  dsimp only
  split_ifs
  all_goals
    refine ⟨fun q => ?_, ?_⟩
    · first
        | rfl
        | exact poke_vn _ _ _ _ rfl
    · first
        | rfl
        | simp [releases, List.count_append, List.count_cons]

/-- The function `sys_write` changes no `vn` field and releases nothing. -/
theorem sys_write_vnodes (E : Env) (s : Kernel) (fd buf nbytes : Int) (v : Nat) :
    (∀ q, ((sys_write E s fd buf nbytes).st.heap q).vn = (s.heap q).vn) ∧
      releases (sys_write E s fd buf nbytes).st.trace v = releases s.trace v := by
  unfold sys_write
  dsimp only
  split_ifs
  all_goals
    refine ⟨fun q => ?_, ?_⟩
    · first
        | rfl
        | exact poke_vn _ _ _ _ rfl
    · first
        | rfl
        | simp [releases, List.count_append, List.count_cons]

/-- The function `sys_lseek` changes no `vn` field and releases nothing. -/
theorem sys_lseek_vnodes (E : Env) (s : Kernel) (fd pos whence : Int) (v : Nat) :
    (∀ q, ((sys_lseek E s fd pos whence).st.heap q).vn = (s.heap q).vn) ∧
      releases (sys_lseek E s fd pos whence).st.trace v = releases s.trace v := by
  unfold sys_lseek
  dsimp only
  split_ifs
  all_goals
    refine ⟨fun q => ?_, ?_⟩
    · first
        | rfl
        | exact poke_vn _ _ _ _ rfl
    · first
        | rfl
        | simp [releases, List.count_append, List.count_cons]

/-- The function `sys_dup2` changes no `vn` field and releases only a vnode
that a record holds. -/
theorem sys_dup2_vnodes (s : Kernel) (oldfd newfd : Int) (v : Nat) :
    (∀ q, ((sys_dup2 s oldfd newfd).st.heap q).vn = (s.heap q).vn) ∧
      (¬ holds_vnode s v →
        releases (sys_dup2 s oldfd newfd).st.trace v = releases s.trace v) := by
  have hc := sys_close_vnodes s newfd v
  unfold sys_dup2
  dsimp only
  split_ifs
  · exact ⟨fun _ => rfl, fun _ => rfl⟩
  · exact ⟨fun _ => rfl, fun _ => rfl⟩
  · exact ⟨fun _ => rfl, fun _ => rfl⟩
  · exact hc
  · refine ⟨fun q => ?_, hc.2⟩
    have e := poke_vn (sys_close s newfd).st.heap (s.of_table (s.fd_table oldfd)) q
      { (sys_close s newfd).st.heap (s.of_table (s.fd_table oldfd)) with
        ref_count := ((sys_close s newfd).st.heap (s.of_table (s.fd_table oldfd))).ref_count + 1 }
      rfl
    exact e.trans (hc.1 q)
  · exact ⟨fun _ => rfl, fun _ => rfl⟩
  · exact ⟨fun q => poke_vn _ _ _ _ rfl, fun _ => rfl⟩

/-- No syscall on an existing descriptor changes a `vn` field, and none
releases a vnode that no record holds. -/
theorem run_vnodes (E : Env) (s : Kernel) (op : Op) (v : Nat) :
    (∀ q, ((op.run E s).st.heap q).vn = (s.heap q).vn) ∧
      (¬ holds_vnode s v → releases (op.run E s).st.trace v = releases s.trace v) := by
  cases op with
  | close fd => exact sys_close_vnodes s fd v
  | read fd buf buflen =>
    exact ⟨(sys_read_vnodes E s fd buf buflen v).1, fun _ => (sys_read_vnodes E s fd buf buflen v).2⟩
  | write fd buf nbytes =>
    exact ⟨(sys_write_vnodes E s fd buf nbytes v).1,
      fun _ => (sys_write_vnodes E s fd buf nbytes v).2⟩
  | lseek fd pos whence =>
    exact ⟨(sys_lseek_vnodes E s fd pos whence v).1,
      fun _ => (sys_lseek_vnodes E s fd pos whence v).2⟩
  | dup2 oldfd newfd => exact sys_dup2_vnodes s oldfd newfd v

/-- A vnode that no record holds is held by no record, and is not released,
after any sequence of syscalls on existing descriptors. -/
theorem run_ops_vnodes (E : Env) (v : Nat) (ops : List Op) :
    ∀ s : Kernel, ¬ holds_vnode s v →
      ¬ holds_vnode (run_ops E s ops) v ∧
        releases (run_ops E s ops).trace v = releases s.trace v := by
  induction ops with
  | nil => intro s h; exact ⟨h, rfl⟩
  | cons op rest ih =>
    intro s h
    obtain ⟨a, b⟩ := run_vnodes E s op v
    have h' : ¬ holds_vnode (op.run E s).st v := by
      rintro ⟨q, hq⟩
      exact h ⟨q, (a q).symm.trans hq⟩
    obtain ⟨c, d⟩ := ih _ h'
    exact ⟨c, d.trans (b h)⟩

/-- The tests that a successful `sys_open` has passed. -/
theorem sys_open_ok_conds (E : Env) (s : Kernel) (filename flags mode : Int)
    (h : (sys_open E s filename flags mode).err = 0) :
    (E.copyinstr s.trace filename).1 = 0 ∧ access_ok flags ∧
      (E.vfs_open (open_s0 s filename).trace (E.copyinstr s.trace filename).2
        flags mode).1 = 0 ∧
      get_fd s ≠ FD_MAX ∧ get_of s ≠ OPEN_MAX ∧ (open_cr E s filename flags mode).1 = 0 ∧
      (Int.land flags O_APPEND ≠ 0 → (open_stat E s filename flags mode).1 = 0) := by
  by_cases hc : (E.copyinstr s.trace filename).1 = 0
  swap
  · rw [sys_open_copy_fail E s filename flags mode hc] at h
    exact absurd h hc
  by_cases hm : access_ok flags
  swap
  · rw [sys_open_einval E s filename flags mode hc hm] at h
    exact absurd h (show EINVAL ≠ 0 by decide)
  by_cases ho : (E.vfs_open (open_s0 s filename).trace (E.copyinstr s.trace filename).2
      flags mode).1 = 0
  swap
  · rw [sys_open_vfs_fail E s filename flags mode hc hm ho] at h
    exact absurd h ho
  by_cases hfd : get_fd s = FD_MAX
  · rw [sys_open_emfile E s filename flags mode hc hm ho hfd] at h
    exact absurd h (show EMFILE ≠ 0 by decide)
  by_cases hof : get_of s = OPEN_MAX
  · rw [sys_open_enfile E s filename flags mode hc hm ho hfd hof] at h
    exact absurd h (show ENFILE ≠ 0 by decide)
  by_cases hcr : (open_cr E s filename flags mode).1 = 0
  swap
  · rw [sys_open_create_fail E s filename flags mode hc hm ho hfd hof hcr] at h
    exact absurd h hcr
  refine ⟨hc, hm, ho, hfd, hof, hcr, fun ha => ?_⟩
  by_contra hst
  rw [sys_open_stat_fail E s filename flags mode hc hm ho hfd hof hcr ha hst] at h
  exact absurd h hst

/-! ## Slot 0 of the open-file table -/

/-- The scan `get_of` never gives index 0. -/
theorem get_of_pos (s : Kernel) : 1 ≤ get_of s := by
  unfold get_of
  have := (scan_loop_range (fun i => decide (s.of_table i = OF_EMPTY)) OPEN_MAX.toNat 0).1
  omega

/-- The function `sys_open` never writes slot 0. -/
theorem sys_open_slot0 (E : Env) (s : Kernel) (filename flags mode : Int) :
    (sys_open E s filename flags mode).st.of_table 0 = s.of_table 0 := by
  rcases sys_open_of_table E s filename flags mode with e | e
  · rw [e]
  · rw [e]
    apply store_other
    have := get_of_pos s
    omega

/-- The function `init_filesystem`, once the table is allocated, leaves slot 0
free. -/
theorem init_filesystem_slot0 (E : Env) (s : Kernel) (h : E.kmalloc s.trace ≠ 0) :
    (init_filesystem E s).2.of_table 0 = OF_EMPTY := by
  have e1 : (init_r1 E s).2.of_table 0 = OF_EMPTY := by
    rw [create_of_of_table, store_other _ _ _ _ (by decide)]
    rfl
  have e2 : (init_r2 E s).2.of_table 0 = OF_EMPTY := by
    rw [create_of_of_table, store_other _ _ _ _ (by decide)]
    exact e1
  unfold init_filesystem
  dsimp only
  rw [if_neg h]
  split_ifs
  · exact e1
  · exact e2
  · exact e2

/-! ## C9: the scan `get_of` when no slot is left -/

set_option maxRecDepth 100000 in
/-- C9, in `packed`: slot 0, which the code never uses, is free, slots 1 to 127
are all in use and descriptor 3 is empty; `get_of` finds no slot and gives
`OPEN_MAX + 1 = 129`, which `sys_open` does not recognise: the call returns `0`
with result 3 instead of `ENFILE`, uses 129 as the slot index, overwrites the
word at index 129, outside the open-file table, with the address of a new
record (a block that no slot held), and stores 129 in descriptor 3. -/
theorem open_on_full_of_table :
    packed.of_table 0 = OF_EMPTY ∧
      (∀ i, 1 ≤ i → i < OPEN_MAX → packed.of_table i ≠ OF_EMPTY) ∧
      packed.fd_table 3 = FD_EMPTY ∧
      get_of packed = 129 ∧ (129 : Int) ≠ OPEN_MAX ∧
      (sys_open env_ok packed 0 O_RDWR 420).err = 0 ∧
      (sys_open env_ok packed 0 O_RDWR 420).err ≠ ENFILE ∧
      (sys_open env_ok packed 0 O_RDWR 420).rtn = some 3 ∧
      packed.of_table 129 = 2129 ∧
      (sys_open env_ok packed 0 O_RDWR 420).st.of_table 129 = 1002 ∧
      (∀ i, packed.of_table i ≠ 1002) ∧
      (sys_open env_ok packed 0 O_RDWR 420).st.fd_table 3 = 129 ∧
      ((sys_open env_ok packed 0 O_RDWR 420).st.heap 1002).vn = 4 := by
  refine ⟨by decide, ?_, by decide, by decide, by decide, by decide, by decide, by decide,
    by decide, by decide, ?_, by decide, by decide⟩
  · intro i h1 _
    have h0 : i ≠ 0 := by omega
    simp [packed, h0, OF_EMPTY]
  · intro i
    by_cases h0 : i = 0
    · simp [packed, h0, OF_EMPTY]
    · simp only [packed, h0, if_false]
      omega

/-! ## The descriptor table under `sys_open` -/

/-- The function `create_of` never writes to the descriptor table. -/
theorem create_of_fd_table (E : Env) (s : Kernel) (filename : String)
    (flags mode slot : Int) :
    (create_of E s filename flags mode slot).2.fd_table = s.fd_table := by
  unfold create_of
  dsimp only
  split_ifs <;> rfl

/-- Once `create_of` has succeeded, `sys_open` has stored the slot index in the
descriptor that `get_fd` selected, whether or not the call then succeeds. -/
theorem sys_open_linked (E : Env) (s : Kernel) (filename flags mode : Int)
    (hc : (E.copyinstr s.trace filename).1 = 0) (hm : access_ok flags)
    (ho : (E.vfs_open (open_s0 s filename).trace (E.copyinstr s.trace filename).2
      flags mode).1 = 0)
    (hfd : get_fd s ≠ FD_MAX) (hof : get_of s ≠ OPEN_MAX)
    (hcr : (open_cr E s filename flags mode).1 = 0) :
    (sys_open E s filename flags mode).st.fd_table =
      store s.fd_table (get_fd s) (get_of s) := by
  have hfdt : (open_cr E s filename flags mode).2.fd_table = s.fd_table :=
    create_of_fd_table E (open_s1 E s filename flags mode) _ flags mode (get_of s)
  by_cases ha : Int.land flags O_APPEND = 0
  · rw [sys_open_plain E s filename flags mode hc hm ho hfd hof hcr ha]
    dsimp only
    rw [hfdt]
  by_cases hst : (open_stat E s filename flags mode).1 = 0
  · rw [sys_open_append E s filename flags mode hc hm ho hfd hof hcr ha hst]
    dsimp only [record_call_fd_table]
    rw [hfdt]
  · rw [sys_open_stat_fail E s filename flags mode hc hm ho hfd hof hcr ha hst]
    dsimp only [record_call_fd_table]
    rw [hfdt]

/-- The function `sys_open` writes to the descriptor table at the index given by
`get_fd` at most. -/
theorem sys_open_fd_table (E : Env) (s : Kernel) (filename flags mode : Int) :
    (sys_open E s filename flags mode).st.fd_table = s.fd_table ∨
      (sys_open E s filename flags mode).st.fd_table =
        store s.fd_table (get_fd s) (get_of s) := by
  by_cases hc : (E.copyinstr s.trace filename).1 = 0
  swap
  · rw [sys_open_copy_fail E s filename flags mode hc]
    exact Or.inl rfl
  by_cases hm : access_ok flags
  swap
  · rw [sys_open_einval E s filename flags mode hc hm]
    exact Or.inl rfl
  by_cases ho : (E.vfs_open (open_s0 s filename).trace (E.copyinstr s.trace filename).2
      flags mode).1 = 0
  swap
  · rw [sys_open_vfs_fail E s filename flags mode hc hm ho]
    exact Or.inl rfl
  by_cases hfd : get_fd s = FD_MAX
  · rw [sys_open_emfile E s filename flags mode hc hm ho hfd]
    exact Or.inl rfl
  by_cases hof : get_of s = OPEN_MAX
  · rw [sys_open_enfile E s filename flags mode hc hm ho hfd hof]
    exact Or.inl rfl
  by_cases hcr : (open_cr E s filename flags mode).1 = 0
  swap
  · rw [sys_open_create_fail E s filename flags mode hc hm ho hfd hof hcr]
    exact Or.inl (create_of_fd_table E (open_s1 E s filename flags mode) _ flags mode
      (get_of s))
  · exact Or.inr (sys_open_linked E s filename flags mode hc hm ho hfd hof hcr)

/-- An empty descriptor stays empty across every call that is neither a `dup2`
onto it nor an `open` for which `get_fd` selects it. -/
theorem step_keeps_empty (E : Env) (s : Kernel) (fd : Int) (step : Step)
    (h : s.fd_table fd = FD_EMPTY) (hs : step.spares fd s) :
    (step.run E s).st.fd_table fd = FD_EMPTY := by
  cases step with
  | op o => exact run_keeps_empty E s fd o h hs
  | «open» filename flags mode =>
    show (sys_open E s filename flags mode).st.fd_table fd = FD_EMPTY
    rcases sys_open_fd_table E s filename flags mode with e | e
    · rw [e, h]
    · rw [e, store_other _ _ _ _ (Ne.symm hs), h]

/-- A descriptor that no call of the sequence assigns is empty at the end. -/
theorem run_steps_empty (E : Env) (fd : Int) (steps : List Step) :
    ∀ s : Kernel, s.fd_table fd = FD_EMPTY → never_assigned E fd s steps →
      (run_steps E s steps).fd_table fd = FD_EMPTY := by
  induction steps with
  | nil => intro s h _; exact h
  | cons step rest ih =>
    intro s _ hn
    exact ih _ hn.1 hn.2

/-! ## C1: a closed descriptor stays bad until it is assigned again -/

/-- C1, as amended: if `check_fd s fd = 0` then `sys_close s fd` returns `0` and
empties the entry of `fd`. From then on, across every sequence of calls of this
layer, `sys_open` included, that does not assign `fd` again, `check_fd`,
`sys_close`, `sys_read`, `sys_write` and `sys_dup2` on `fd` give `EBADF` for all
their other arguments, while `sys_lseek` gives `EBADF` when `whence` is
`SEEK_SET`, `SEEK_CUR` or `SEEK_END` and `EINVAL` for every other `whence`.
A call leaves an empty `fd` empty unless it is a `dup2` onto `fd` or an `open`
for which `get_fd` selects `fd`; an `open` that takes another descriptor is such
a call. An `open` for which `get_fd` selects `fd` assigns it as soon as
`create_of` has succeeded, also when the call then fails at `VOP_STAT`. -/
theorem closed_fd_is_bad (E : Env) (s : Kernel) (fd : Int) (h : check_fd s fd = 0) :
    (sys_close s fd).err = 0 ∧
      (sys_close s fd).st.fd_table fd = FD_EMPTY ∧
      (∀ steps : List Step, never_assigned E fd (sys_close s fd).st steps →
        check_fd (run_steps E (sys_close s fd).st steps) fd = EBADF ∧
        (sys_close (run_steps E (sys_close s fd).st steps) fd).err = EBADF ∧
        (∀ buf buflen,
          (sys_read E (run_steps E (sys_close s fd).st steps) fd buf buflen).err = EBADF) ∧
        (∀ buf nbytes,
          (sys_write E (run_steps E (sys_close s fd).st steps) fd buf nbytes).err = EBADF) ∧
        (∀ pos whence,
          (sys_lseek E (run_steps E (sys_close s fd).st steps) fd pos whence).err =
            if whence = SEEK_SET ∨ whence = SEEK_CUR ∨ whence = SEEK_END then EBADF
            else EINVAL) ∧
        (∀ newfd,
          (sys_dup2 (run_steps E (sys_close s fd).st steps) fd newfd).err = EBADF)) ∧
      (∀ (t : Kernel) (step : Step), t.fd_table fd = FD_EMPTY → step.spares fd t →
        (step.run E t).st.fd_table fd = FD_EMPTY) ∧
      (∀ (t : Kernel) (filename flags mode : Int), get_fd t = fd →
        (E.copyinstr t.trace filename).1 = 0 → access_ok flags →
        (E.vfs_open (open_s0 t filename).trace (E.copyinstr t.trace filename).2
          flags mode).1 = 0 →
        get_fd t ≠ FD_MAX → get_of t ≠ OPEN_MAX →
        (open_cr E t filename flags mode).1 = 0 →
        (sys_open E t filename flags mode).st.fd_table fd = get_of t ∧
          get_of t ≠ FD_EMPTY ∧
          (Int.land flags O_APPEND ≠ 0 → (open_stat E t filename flags mode).1 ≠ 0 →
            (sys_open E t filename flags mode).err = (open_stat E t filename flags mode).1 ∧
            (sys_open E t filename flags mode).err ≠ 0)) := by
  have hclosed : (sys_close s fd).st.fd_table fd = FD_EMPTY := by
    rw [sys_close_fd_table s fd h, store_same]
  refine ⟨by rw [sys_close_err, h], hclosed, ?_, ?_, ?_⟩
  · intro steps hsteps
    have hempty := run_steps_empty E fd steps _ hclosed hsteps
    have hbad := check_fd_empty _ fd hempty
    have hne : check_fd (run_steps E (sys_close s fd).st steps) fd ≠ 0 := by
      rw [hbad]; exact EBADF_ne_zero
    refine ⟨hbad, by rw [sys_close_err, hbad], ?_, ?_, ?_, ?_⟩
    · intro buf buflen
      rw [sys_read_bad E _ fd buf buflen hne, hbad]
    · intro buf nbytes
      rw [sys_write_bad E _ fd buf nbytes hne, hbad]
    · intro pos whence
      by_cases hw : whence = SEEK_SET ∨ whence = SEEK_CUR ∨ whence = SEEK_END
      · rw [if_pos hw, sys_lseek_bad E _ fd pos whence hw hne, hbad]
      · rw [if_neg hw, sys_lseek_whence E _ fd pos whence hw]
    · intro newfd
      rw [sys_dup2_bad _ fd newfd hne, hbad]
  · intro t step ht hs
    exact step_keeps_empty E t fd step ht hs
  · intro t filename flags mode hsel hc hm ho hfd hof hcr
    have hpos := get_of_pos t
    refine ⟨?_, ?_, ?_⟩
    · rw [sys_open_linked E t filename flags mode hc hm ho hfd hof hcr, ← hsel, store_same]
    · intro e
      rw [e] at hpos
      exact absurd hpos (by decide)
    · intro ha hst
      rw [sys_open_stat_fail E t filename flags mode hc hm ho hfd hof hcr ha hst]
      exact ⟨rfl, hst⟩

set_option maxRecDepth 100000 in
/-- C1, witness, with `env_stat_fails`: descriptor 2 of `two_open` is closed; then
descriptor 1 is closed, an `open` takes descriptor 1 again, and a `read` runs on
it: descriptor 2 is still bad afterwards. An `open` with `O_WRONLY | O_APPEND`
right after the close of descriptor 2 fails with the error 5 of `VOP_STAT` and
has assigned descriptor 2, which `check_fd` accepts again. -/
theorem closed_fd_is_bad_witness :
    check_fd two_open 2 = 0 ∧
      (sys_close two_open 2).err = 0 ∧
      (sys_open env_stat_fails (sys_close (sys_close two_open 2).st 1).st 0 O_RDWR
        420).rtn = some 1 ∧
      (sys_lseek env_stat_fails (run_steps env_stat_fails (sys_close two_open 2).st
        [Step.op (Op.close 1), Step.open 0 O_RDWR 420, Step.op (Op.read 1 0 8)]) 2 0
        SEEK_END).err = EBADF ∧
      (sys_open env_stat_fails (sys_close two_open 2).st 0 33 420).err = 5 ∧
      (sys_open env_stat_fails (sys_close two_open 2).st 0 33 420).st.fd_table 2 = 3 ∧
      check_fd (sys_open env_stat_fails (sys_close two_open 2).st 0 33 420).st 2 = 0 :=
  have h : check_fd two_open 2 = 0 := by decide
  have r := closed_fd_is_bad env_stat_fails two_open 2 h
  have n : never_assigned env_stat_fails 2 (sys_close two_open 2).st
      [Step.op (Op.close 1), Step.open 0 O_RDWR 420, Step.op (Op.read 1 0 8)] :=
    ⟨by decide, by decide, by decide, trivial⟩
  have o := r.2.2.2.2 (sys_close two_open 2).st 0 33 420 (by decide) (by decide) (by decide)
    (by decide) (by decide) (by decide) (by decide)
  ⟨h, r.1, by decide,
    by have := (r.2.2.1 _ n).2.2.2.2.1 0 SEEK_END; simpa [SEEK_END, SEEK_SET, SEEK_CUR] using this,
    (o.2.2 (by decide) (by decide)).1, o.1.trans (by decide), by decide⟩

/-! ## Vnodes under `sys_open` -/

/-- The number of opens asked after more calls is the sum of the two numbers. -/
theorem opens_asked_append (a b : List Call) :
    opens_asked (a ++ b) = opens_asked a + opens_asked b := by
  unfold opens_asked
  exact List.countP_append _ _ _

/-- The calls made by a successful `sys_open`, and the vnode it stores: the
trace grows by `copyinstr`, `vfs_open`, `kmalloc`, `vfs_open` and, under
`O_APPEND`, `VOP_STAT`; the second `vfs_open` is given the path buffer as the
first one left it; the record at the new block holds the second vnode. -/
theorem sys_open_ok_calls (E : Env) (s : Kernel) (filename flags mode : Int)
    (h : (sys_open E s filename flags mode).err = 0) :
    (∃ tail : List Call,
        (sys_open E s filename flags mode).st.trace =
          s.trace ++ [Call.copyinstr filename] ++
            [Call.vfs_open (E.copyinstr s.trace filename).2 flags mode] ++ [Call.kmalloc] ++
            [Call.vfs_open (open_path2 E s filename flags mode) flags mode] ++ tail ∧
        (tail = [] ∨ tail = [Call.VOP_STAT (open_vn2 E s filename flags mode)])) ∧
      ((sys_open E s filename flags mode).st.heap
        (E.kmalloc (open_s1 E s filename flags mode).trace)).vn =
          open_vn2 E s filename flags mode := by
  obtain ⟨hc, hm, ho, hfd, hof, hcr, hst⟩ := sys_open_ok_conds E s filename flags mode h
  obtain ⟨-, -, c3, c4, c5⟩ := create_of_ok _ _ _ _ _ _ hcr
  have d3 : (open_cr E s filename flags mode).2.of_table =
      store s.of_table (get_of s) (E.kmalloc (open_s1 E s filename flags mode).trace) := c3
  have d4 : (open_cr E s filename flags mode).2.heap =
      poke s.heap (E.kmalloc (open_s1 E s filename flags mode).trace)
        { vn := open_vn2 E s filename flags mode,
          ref_count := 0, offset := 0, mode := mode, flags := flags } := c4
  have d5 : (open_cr E s filename flags mode).2.trace =
      s.trace ++ [Call.copyinstr filename] ++
        [Call.vfs_open (E.copyinstr s.trace filename).2 flags mode] ++ [Call.kmalloc] ++
        [Call.vfs_open (open_path2 E s filename flags mode) flags mode] := c5
  by_cases ha : Int.land flags O_APPEND = 0
  · rw [sys_open_plain E s filename flags mode hc hm ho hfd hof hcr ha]
    dsimp only
    rw [d4, d5, poke_same]
    exact ⟨⟨[], by rw [List.append_nil], Or.inl rfl⟩, rfl⟩
  · rw [sys_open_append E s filename flags mode hc hm ho hfd hof hcr ha (hst ha)]
    dsimp only [record_call_trace]
    rw [d3, d4, d5]
    simp only [store_same, poke_same]
    exact ⟨⟨_, rfl, Or.inr rfl⟩, congrArg open_file.vn (poke_same _ _ _)⟩

/-- The function `create_of` writes no `vn` field but that of the new record,
where it puts the vnode of its `vfs_open`, and releases nothing. -/
theorem create_of_vnodes (E : Env) (s : Kernel) (filename : String)
    (flags mode slot : Int) (v : Nat) :
    (∀ q, ((create_of E s filename flags mode slot).2.heap q).vn = (s.heap q).vn ∨
        ((create_of E s filename flags mode slot).2.heap q).vn =
          (E.vfs_open (s.trace ++ [Call.kmalloc]) filename flags mode).2) ∧
      releases (create_of E s filename flags mode slot).2.trace v = releases s.trace v := by
  unfold create_of
  dsimp only
  split_ifs with h1 h2
  · exact ⟨fun _ => Or.inl rfl, releases_snoc _ _ _ (by simp)⟩
  · refine ⟨fun _ => Or.inl rfl, ?_⟩
    dsimp only [record_call_trace]
    rw [releases_snoc _ _ _ (by simp), releases_snoc _ _ _ (by simp)]
  · refine ⟨fun q => ?_, ?_⟩
    · by_cases e : q = E.kmalloc s.trace
      · right
        dsimp only
        rw [e, poke_same]
        rfl
      · left
        dsimp only
        rw [poke_other _ _ _ _ e]
        rfl
    · dsimp only [record_call_trace]
      rw [releases_snoc _ _ _ (by simp), releases_snoc _ _ _ (by simp)]

/-- The function `sys_open` writes no `vn` field but that of the new record,
where the vnode of the second `vfs_open` goes, and releases nothing, on every
path. -/
theorem sys_open_vnodes (E : Env) (s : Kernel) (filename flags mode : Int) (v : Nat) :
    (∀ q, ((sys_open E s filename flags mode).st.heap q).vn = (s.heap q).vn ∨
        ((sys_open E s filename flags mode).st.heap q).vn =
          open_vn2 E s filename flags mode) ∧
      releases (sys_open E s filename flags mode).st.trace v = releases s.trace v := by
  have r0 : releases (open_s0 s filename).trace v = releases s.trace v :=
    releases_snoc _ _ _ (by simp)
  have r1 : releases (open_s1 E s filename flags mode).trace v = releases s.trace v :=
    (releases_snoc _ _ _ (by simp)).trans r0
  obtain ⟨cq, cr⟩ := create_of_vnodes E (open_s1 E s filename flags mode)
    (open_path2 E s filename flags mode) flags mode (get_of s) v
  have dq : ∀ q, ((open_cr E s filename flags mode).2.heap q).vn = (s.heap q).vn ∨
      ((open_cr E s filename flags mode).2.heap q).vn = open_vn2 E s filename flags mode := cq
  have dr : releases (open_cr E s filename flags mode).2.trace v = releases s.trace v :=
    cr.trans r1
  by_cases hc : (E.copyinstr s.trace filename).1 = 0
  swap
  · rw [sys_open_copy_fail E s filename flags mode hc]
    exact ⟨fun _ => Or.inl rfl, r0⟩
  by_cases hm : access_ok flags
  swap
  · rw [sys_open_einval E s filename flags mode hc hm]
    exact ⟨fun _ => Or.inl rfl, r0⟩
  by_cases ho : (E.vfs_open (open_s0 s filename).trace (E.copyinstr s.trace filename).2
      flags mode).1 = 0
  swap
  · rw [sys_open_vfs_fail E s filename flags mode hc hm ho]
    exact ⟨fun _ => Or.inl rfl, r1⟩
  by_cases hfd : get_fd s = FD_MAX
  · rw [sys_open_emfile E s filename flags mode hc hm ho hfd]
    exact ⟨fun _ => Or.inl rfl, r1⟩
  by_cases hof : get_of s = OPEN_MAX
  · rw [sys_open_enfile E s filename flags mode hc hm ho hfd hof]
    exact ⟨fun _ => Or.inl rfl, r1⟩
  by_cases hcr : (open_cr E s filename flags mode).1 = 0
  swap
  · rw [sys_open_create_fail E s filename flags mode hc hm ho hfd hof hcr]
    exact ⟨dq, dr⟩
  by_cases ha : Int.land flags O_APPEND = 0
  · rw [sys_open_plain E s filename flags mode hc hm ho hfd hof hcr ha]
    exact ⟨dq, dr⟩
  by_cases hst : (open_stat E s filename flags mode).1 = 0
  · rw [sys_open_append E s filename flags mode hc hm ho hfd hof hcr ha hst]
    refine ⟨fun q => ?_, ?_⟩
    · dsimp only
      by_cases e : q = (open_cr E s filename flags mode).2.of_table (get_of s)
      · rw [e, poke_same]
        exact dq _
      · rw [poke_other _ _ _ _ e]
        exact dq q
    · dsimp only [record_call_trace]
      rw [releases_snoc _ _ _ (by simp)]
      exact dr
  · rw [sys_open_stat_fail E s filename flags mode hc hm ho hfd hof hcr ha hst]
    refine ⟨dq, ?_⟩
    dsimp only [record_call_trace]
    rw [releases_snoc _ _ _ (by simp)]
    exact dr

/-- A vnode that no record holds is held by no record after a call, unless the
call is an `open` whose `create_of` gets that vnode from `vfs_open`. -/
theorem step_vnodes (E : Env) (s : Kernel) (step : Step) (v : Nat)
    (h : ¬ holds_vnode s v) (hs : step.avoids E v s) :
    ¬ holds_vnode (step.run E s).st v := by
  cases step with
  | op o =>
    rintro ⟨q, hq⟩
    exact h ⟨q, ((run_vnodes E s o v).1 q).symm.trans hq⟩
  | «open» filename flags mode =>
    rintro ⟨q, hq⟩
    rcases (sys_open_vnodes E s filename flags mode v).1 q with e | e
    · exact h ⟨q, e.symm.trans hq⟩
    · exact hs (e.symm.trans hq)

/-- No call releases a vnode that no record holds. -/
theorem step_releases (E : Env) (s : Kernel) (step : Step) (v : Nat)
    (h : ¬ holds_vnode s v) :
    releases (step.run E s).st.trace v = releases s.trace v := by
  cases step with
  | op o => exact (run_vnodes E s o v).2 h
  | «open» filename flags mode => exact (sys_open_vnodes E s filename flags mode v).2

/-- A vnode that no record holds, and that no call of a sequence stores, is held
by no record at the end and has not been released. -/
theorem run_steps_vnodes (E : Env) (v : Nat) (steps : List Step) :
    ∀ s : Kernel, ¬ holds_vnode s v → never_held E v s steps →
      ¬ holds_vnode (run_steps E s steps) v ∧
        releases (run_steps E s steps).trace v = releases s.trace v := by
  induction steps with
  | nil => intro s h _; exact ⟨h, rfl⟩
  | cons step rest ih =>
    intro s h hn
    obtain ⟨c, d⟩ := ih _ hn.1 hn.2
    exact ⟨c, d.trans (step_releases E s step v h)⟩

/-! ## C20: `sys_open` opens the path twice -/

set_option maxRecDepth 100000 in
/-- C20, as stated, fails: with `env_by_path`, where one path has one vnode, the
open in `blank` succeeds, both `vfs_open` calls return the vnode 7, the new
record holds it, and after `dup2 (1, 5)` and `close (1)` it has been released. -/
theorem open_first_vnode_stored :
    (sys_open env_by_path blank 0 O_RDWR 420).err = 0 ∧
      (sys_open env_by_path blank 0 O_RDWR 420).rtn = some 1 ∧
      open_vn1 env_by_path blank 0 O_RDWR 420 = 7 ∧
      ((sys_open env_by_path blank 0 O_RDWR 420).st.heap
        ((sys_open env_by_path blank 0 O_RDWR 420).st.of_table
          ((sys_open env_by_path blank 0 O_RDWR 420).st.fd_table 1))).vn = 7 ∧
      releases (sys_open env_by_path blank 0 O_RDWR 420).st.trace 7 = 0 ∧
      releases (run_ops env_by_path (sys_open env_by_path blank 0 O_RDWR 420).st
        [Op.dup2 1 5, Op.close 1]).trace 7 = 1 := by
  decide

/-- C20, as amended: a successful `sys_open` makes exactly two `vfs_open` calls
(its calls are `copyinstr`, `vfs_open` on the path as copied in, `kmalloc`,
`vfs_open` on the path buffer as the first one left it and, under `O_APPEND`,
`VOP_STAT`); the new record, to which the returned descriptor leads, holds the
vnode of the second `vfs_open`, and no other record is written.  When the first
vnode differs from the second and was held by no record before the call, it is
held by no record after it, and it is not released by any sequence of calls,
`open` included, in which no record comes to hold it.  When the two vnodes are
the same, the new record holds the first vnode.  On the `EMFILE` and `ENFILE`
exits, taken after the first `vfs_open` has succeeded, the calls made are
`copyinstr` and that `vfs_open`, no record is written, and a first vnode held
by no record is not released by such a sequence either.  On every path
`sys_open` releases nothing.  A vnode that no record holds comes to be held only
through an `open` whose `create_of` gets that vnode from `vfs_open`. -/
theorem open_opens_twice (E : Env) (s : Kernel) (filename flags mode : Int) :
    ((sys_open E s filename flags mode).err = 0 →
        opens_asked (sys_open E s filename flags mode).st.trace =
          opens_asked s.trace + 2 ∧
        (∃ tail : List Call,
          (sys_open E s filename flags mode).st.trace =
            s.trace ++ [Call.copyinstr filename] ++
              [Call.vfs_open (E.copyinstr s.trace filename).2 flags mode] ++
              [Call.kmalloc] ++
              [Call.vfs_open (open_path2 E s filename flags mode) flags mode] ++ tail ∧
          (tail = [] ∨ tail = [Call.VOP_STAT (open_vn2 E s filename flags mode)])) ∧
        ((sys_open E s filename flags mode).st.heap
          ((sys_open E s filename flags mode).st.of_table
            ((sys_open E s filename flags mode).st.fd_table (get_fd s)))).vn =
              open_vn2 E s filename flags mode ∧
        (∀ q, q ≠ (sys_open E s filename flags mode).st.of_table
            ((sys_open E s filename flags mode).st.fd_table (get_fd s)) →
          (sys_open E s filename flags mode).st.heap q = s.heap q) ∧
        (open_vn1 E s filename flags mode ≠ open_vn2 E s filename flags mode →
          ¬ holds_vnode s (open_vn1 E s filename flags mode) →
          ∀ steps : List Step,
            never_held E (open_vn1 E s filename flags mode)
              (sys_open E s filename flags mode).st steps →
            ¬ holds_vnode (run_steps E (sys_open E s filename flags mode).st steps)
                (open_vn1 E s filename flags mode) ∧
              releases (run_steps E (sys_open E s filename flags mode).st steps).trace
                  (open_vn1 E s filename flags mode) =
                releases s.trace (open_vn1 E s filename flags mode)) ∧
        (open_vn1 E s filename flags mode = open_vn2 E s filename flags mode →
          holds_vnode (sys_open E s filename flags mode).st
            (open_vn1 E s filename flags mode))) ∧
      ((E.copyinstr s.trace filename).1 = 0 → access_ok flags →
        (E.vfs_open (open_s0 s filename).trace (E.copyinstr s.trace filename).2
          flags mode).1 = 0 →
        (get_fd s = FD_MAX ∨ get_of s = OPEN_MAX) →
        ((sys_open E s filename flags mode).err = EMFILE ∨
            (sys_open E s filename flags mode).err = ENFILE) ∧
          (sys_open E s filename flags mode).st.heap = s.heap ∧
          (sys_open E s filename flags mode).st.trace =
            s.trace ++ [Call.copyinstr filename] ++
              [Call.vfs_open (E.copyinstr s.trace filename).2 flags mode] ∧
          (¬ holds_vnode s (open_vn1 E s filename flags mode) →
            ∀ steps : List Step,
              never_held E (open_vn1 E s filename flags mode)
                (sys_open E s filename flags mode).st steps →
              releases (run_steps E (sys_open E s filename flags mode).st steps).trace
                  (open_vn1 E s filename flags mode) =
                releases s.trace (open_vn1 E s filename flags mode))) ∧
      (∀ v, releases (sys_open E s filename flags mode).st.trace v = releases s.trace v) ∧
      (∀ (t : Kernel) (step : Step) (v : Nat), ¬ holds_vnode t v → step.avoids E v t →
        ¬ holds_vnode (step.run E t).st v) := by
  have hrel : ∀ v, releases (sys_open E s filename flags mode).st.trace v =
      releases s.trace v := fun v => (sys_open_vnodes E s filename flags mode v).2
  refine ⟨?_, ?_, hrel, fun t step v ht hs => step_vnodes E t step v ht hs⟩
  · intro h
    obtain ⟨⟨tail, htr, htail⟩, hvn⟩ := sys_open_ok_calls E s filename flags mode h
    obtain ⟨-, -, -, -, -, -, t1, t2, hq, -⟩ := sys_open_ok E s filename flags mode h
    have hp : (sys_open E s filename flags mode).st.of_table
        ((sys_open E s filename flags mode).st.fd_table (get_fd s)) =
        E.kmalloc (open_s1 E s filename flags mode).trace := by
      rw [t1, store_same, t2, store_same]
    refine ⟨?_, ⟨tail, htr, htail⟩, by rw [hp]; exact hvn, by rw [hp]; exact hq, ?_, ?_⟩
    · rw [htr]
      rcases htail with e | e <;> rw [e] <;>
        simp [opens_asked, List.countP_append, List.countP_cons]
    · intro hne hfree steps hsteps
      have hfree' : ¬ holds_vnode (sys_open E s filename flags mode).st
          (open_vn1 E s filename flags mode) := by
        rintro ⟨q, hq'⟩
        by_cases e : q = E.kmalloc (open_s1 E s filename flags mode).trace
        · rw [e, hvn] at hq'
          exact hne hq'.symm
        · rw [hq q e] at hq'
          exact hfree ⟨q, hq'⟩
      obtain ⟨a, b⟩ := run_steps_vnodes E _ steps _ hfree' hsteps
      exact ⟨a, b.trans (hrel _)⟩
    · intro he
      exact ⟨_, hvn.trans he.symm⟩
  · intro hc hm ho hfull
    have main : ((sys_open E s filename flags mode).err = EMFILE ∨
          (sys_open E s filename flags mode).err = ENFILE) ∧
        (sys_open E s filename flags mode).st = open_s1 E s filename flags mode := by
      by_cases hfd : get_fd s = FD_MAX
      · rw [sys_open_emfile E s filename flags mode hc hm ho hfd]
        exact ⟨Or.inl rfl, rfl⟩
      · have hof : get_of s = OPEN_MAX := by
          rcases hfull with e | e
          · exact absurd e hfd
          · exact e
        rw [sys_open_enfile E s filename flags mode hc hm ho hfd hof]
        exact ⟨Or.inr rfl, rfl⟩
    obtain ⟨herr, hst⟩ := main
    refine ⟨herr, by rw [hst]; rfl, by rw [hst]; rfl, ?_⟩
    intro hfree steps hsteps
    have hfree' : ¬ holds_vnode (sys_open E s filename flags mode).st
        (open_vn1 E s filename flags mode) := by
      rw [hst]
      exact hfree
    obtain ⟨-, b⟩ := run_steps_vnodes E _ steps _ hfree' hsteps
    exact b.trans (hrel _)

set_option maxRecDepth 100000 in
/-- C20, witness: with `env_ok` in `blank` the open succeeds, the first vnode is
2 and the second 4, and after `dup2 (1, 5)`, a second `open`, `close (1)` and
`close (5)` vnode 2 has not been released; on the full descriptor table of
`crowded` with `FD_EMPTY` in the word after it, the open ends at `EMFILE`
having made the first `vfs_open` only; with `env_splits` the second `vfs_open`
is given the path `"con"` that the first one left of `"con:"`. -/
theorem open_opens_twice_witness :
    (sys_open env_ok blank 0 O_RDWR 420).err = 0 ∧
      opens_asked (sys_open env_ok blank 0 O_RDWR 420).st.trace = opens_asked blank.trace + 2 ∧
      open_vn1 env_ok blank 0 O_RDWR 420 = 2 ∧
      open_vn2 env_ok blank 0 O_RDWR 420 = 4 ∧
      releases (run_steps env_ok (sys_open env_ok blank 0 O_RDWR 420).st
        [Step.op (Op.dup2 1 5), Step.open 0 O_RDWR 420, Step.op (Op.close 1),
          Step.op (Op.close 5)]).trace (open_vn1 env_ok blank 0 O_RDWR 420) =
        releases blank.trace (open_vn1 env_ok blank 0 O_RDWR 420) ∧
      get_fd { crowded with fd_table := store crowded.fd_table 128 FD_EMPTY } = FD_MAX ∧
      (sys_open env_ok { crowded with fd_table := store crowded.fd_table 128 FD_EMPTY }
        0 O_RDWR 420).st.trace =
        crowded.trace ++ [Call.copyinstr 0] ++ [Call.vfs_open "a.txt" O_RDWR 420] ∧
      (sys_open env_splits blank 0 O_RDWR 420).err = 0 ∧
      (sys_open env_splits blank 0 O_RDWR 420).st.trace =
        [Call.copyinstr 0, Call.vfs_open "con:" O_RDWR 420, Call.kmalloc,
          Call.vfs_open "con" O_RDWR 420] :=
  have h : (sys_open env_ok blank 0 O_RDWR 420).err = 0 := by decide
  have a := (open_opens_twice env_ok blank 0 O_RDWR 420).1 h
  have hfree : ¬ holds_vnode blank (open_vn1 env_ok blank 0 O_RDWR 420) :=
    fun ⟨_, hq⟩ => absurd hq (show (0 : Nat) ≠ 2 by decide)
  have h0 : ¬ holds_vnode (sys_open env_ok blank 0 O_RDWR 420).st 2 :=
    step_vnodes env_ok blank (Step.open 0 O_RDWR 420) 2 hfree
      (show open_vn2 env_ok blank 0 O_RDWR 420 ≠ 2 by decide)
  have h1 := step_vnodes env_ok _ (Step.op (Op.dup2 1 5)) 2 h0 trivial
  have h2 := step_vnodes env_ok _ (Step.open 0 O_RDWR 420) 2 h1
    (show open_vn2 env_ok _ 0 O_RDWR 420 ≠ 2 by decide)
  have h3 := step_vnodes env_ok _ (Step.op (Op.close 1)) 2 h2 trivial
  have h4 := step_vnodes env_ok _ (Step.op (Op.close 5)) 2 h3 trivial
  have n : never_held env_ok (open_vn1 env_ok blank 0 O_RDWR 420)
      (sys_open env_ok blank 0 O_RDWR 420).st
      [Step.op (Op.dup2 1 5), Step.open 0 O_RDWR 420, Step.op (Op.close 1),
        Step.op (Op.close 5)] := ⟨h1, h2, h3, h4, trivial⟩
  have hfull : get_fd { crowded with fd_table := store crowded.fd_table 128 FD_EMPTY }
      = FD_MAX := by decide
  have b := (open_opens_twice env_ok
    { crowded with fd_table := store crowded.fd_table 128 FD_EMPTY } 0 O_RDWR 420).2.1
    (by decide) (by decide) (by decide) (Or.inl hfull)
  ⟨h, a.1, by decide, by decide, (a.2.2.2.2.1 (by decide) hfree _ n).2, hfull, b.2.2.1,
    by decide, by decide⟩

end Syscalls
